import Mathlib

/-!
# PyIDAM: the `idam.Data` constructor (`Data_init` in `idammodule.c`)

A shallow embedding of `Data_init`, and of `idam_setHost`, `idam_readData`,
`Dimension_dealloc` and `Data_dealloc`, with the pieces of the CPython, NumPy
and IDAM client interfaces they touch.

* The IDAM client library is an external collaborator.  It is represented by a
  record of response functions (`Client`), one field per library entry point
  used by `Data_init`, together with the two library globals (server host and
  port) and a log of the calls that change client state or write into caller
  memory (`State.calls`).
* NumPy arrays live in a heap (`State.heap`); an array object is identified by
  its position in the heap, so "the same array instance" is equality of
  identifiers.  Reference counts are kept for array objects and for the Data
  record.  An array whose count reaches zero stays in the heap with count 0.
  When the count of the Data record reaches zero, `Data_dealloc` runs; the
  dimension list and its Dimension objects carry no count of their own and are
  taken to be referenced by the record alone, so that releasing the list runs
  `Dimension_dealloc` on its entries.
* Each read of the buffer `dimsize` by `PyArray_SimpleNew` and each call into
  the client that takes a native axis index `rank-1-i` is entered in
  `State.accesses`, in the order the code makes them.
* Checked allocations (`PyArray_SimpleNew`, `PyList_New`) succeed or fail
  according to an oracle indexed by the number of earlier requests.
* C `int` values are integers; the one subtraction that can leave the `int`
  range (`rank - 1 - order`) is wrapped to 32 bits.  Writes outside the
  8-entry `dimsize` buffer and a `strcpy` that does not fit `tmphost` have no
  defined result: `Data_init` then yields `none`.
-/

namespace Idam

/-- A C `float`, kept as its 32-bit pattern; no arithmetic is done on samples. -/
abbrev Sample := Nat

/-- A `PyObject *` held in a field of `idam_Data` or `idam_Dimension`: `NULL`,
`Py_None`, a string object (by value) or a NumPy array (by identity). -/
inductive PyObj where
  | null
  | none
  | str (s : String)
  | arr (id : Nat)
  deriving DecidableEq

/-- A NumPy array object: reference count, shape and flat contents. -/
structure NdArray where
  ob_refcnt : Int
  shape : List Int
  data : List Sample
  deriving DecidableEq

/-- The C struct `idam_Dimension`. -/
structure idam_Dimension where
  label : PyObj
  units : PyObj
  data : PyObj
  errl : PyObj
  errh : PyObj
  deriving DecidableEq

/-- The object stored in `idam_Data.dim`: `NULL`, `Py_None`, or a Python list
whose slots are `NULL` (`none`) until `PyList_SET_ITEM` fills them. -/
inductive DimObj where
  | null
  | none
  | list (items : List (Option idam_Dimension))
  deriving DecidableEq

/-- The C struct `idam_Data`, with the reference count of its object header. -/
structure idam_Data where
  ob_refcnt : Int
  name : PyObj
  source : PyObj
  label : PyObj
  units : PyObj
  desc : PyObj
  dim : DimObj
  order : Int
  time : PyObj
  errl : PyObj
  errh : PyObj
  data : PyObj
  deriving DecidableEq

/-- Calls into the IDAM client that change its state or fill caller memory, in
the order they are made.  `idamGetAPI` records the server host and port in
force when the request is issued. -/
inductive ClientCall where
  | idamGetAPI (host : String) (port : Int) (data source : String)
  | idamFree (handle : Int)
  | getIdamFloatData (handle : Int)
  | getIdamFloatAsymmetricError (handle side : Int)
  | getIdamFloatDimData (handle dim : Int)
  | getIdamFloatDimAsymmetricError (handle dim side : Int)
  deriving DecidableEq

/-- The external IDAM client, as the answers it gives.  Buffer-filling entry
points take the caller's buffer and return it as the client leaves it. -/
structure Client where
  idamGetAPI : String → Int → String → String → Int
  getIdamSourceStatus : Int → Int
  getIdamErrorMsg : Int → String
  getIdamDataLabel : Int → String
  getIdamDataUnits : Int → String
  getIdamDataDesc : Int → String
  getIdamDataNum : Int → Int
  getIdamRank : Int → Int
  getIdamOrder : Int → Int
  getIdamDimNum : Int → Int → Int
  getIdamErrorType : Int → Int
  getIdamErrorAsymmetry : Int → Int
  getIdamFloatData : Int → List Sample → List Sample
  getIdamFloatAsymmetricError : Int → Int → List Sample → List Sample
  getIdamDimLabel : Int → Int → String
  getIdamDimUnits : Int → Int → String
  getIdamFloatDimData : Int → Int → List Sample → List Sample
  getIdamDimErrorType : Int → Int → Int
  getIdamDimErrorAsymmetry : Int → Int → Int
  getIdamFloatDimAsymmetricError : Int → Int → Int → List Sample → List Sample

/-- Everything `Data_init` depends on besides its arguments and the mutable
state: the client, the allocation oracle and the two header constants. -/
structure Env where
  client : Client
  allocOk : Nat → Bool
  MAXNAME : Nat
  TYPE_UNKNOWN : Int

/-- Uses of the 8-entry buffer `dimsize` and of native axis indices, in the
order they happen: `dimsize first count` is a read of the `count` entries
`dimsize[first .. first+count)` (by `PyArray_SimpleNew`); the other entries are
the calls into the client that take a native axis index, with that index. -/
inductive Access where
  | dimsize (first count : Int)
  | getIdamDimLabel (handle axis : Int)
  | getIdamDimUnits (handle axis : Int)
  | getIdamFloatDimData (handle axis : Int)
  | getIdamDimErrorType (handle axis : Int)
  | getIdamFloatDimAsymmetricError (handle axis side : Int)
  | getIdamDimErrorAsymmetry (handle axis : Int)
  deriving DecidableEq

/-- Process-wide mutable state: the client's server host and port, the call
log, the array heap, the number of checked allocation requests made so far,
the Python error indicator and the log of `dimsize` reads and axis-indexed
client calls. -/
structure State where
  server_host : String
  server_port : Int
  calls : List ClientCall
  heap : List NdArray
  nalloc : Nat
  pyerr : Option String
  accesses : List Access
  deriving DecidableEq

/-- The arguments of `idam.Data(data, source, host, port)` after
`PyArg_ParseTupleAndKeywords` and `PyObject_Str`: `host` is `none` when not
supplied (`NULL`), `port` is `-1` when not supplied. -/
structure Args where
  data : String
  source : String
  host : Option String
  port : Int
  deriving DecidableEq

/-- What one stretch of `Data_init` does: falls through to the next statement
(`cont`) or executes `return -1` (`fail`). -/
inductive Flow where
  | cont (self : idam_Data) (g : State)
  | fail (self : idam_Data) (g : State)
  deriving DecidableEq

/-- Two's-complement wrap of an integer to the range of a C `int`. -/
def cint (x : Int) : Int := (x + 2147483648) % 4294967296 - 2147483648

/-- Add `d` to the reference count of heap array `id` (no effect when absent). -/
def adjRef (d : Int) (id : Nat) (h : List NdArray) : List NdArray :=
  match h[id]? with
  | some a => h.set id { a with ob_refcnt := a.ob_refcnt + d }
  | none => h

/-- The macro `Py_INCREF`, counted on array objects. -/
def Py_INCREF (o : PyObj) (g : State) : State :=
  match o with
  | .arr id => { g with heap := adjRef 1 id g.heap }
  | _ => g

/-- The macro `Py_XDECREF`, counted on array objects; `NULL` is accepted. -/
def Py_XDECREF (o : PyObj) (g : State) : State :=
  match o with
  | .arr id => { g with heap := adjRef (-1) id g.heap }
  | _ => g

/-- The function `Dimension_dealloc` (lines 259-272): one `Py_XDECREF` for each
of `label`, `units`, `data`, `errl`, `errh` (the final `tp_free` of the record
itself has no modelled effect). -/
def Dimension_dealloc (d : idam_Dimension) (g : State) : State :=
  Py_XDECREF d.errh (Py_XDECREF d.errl (Py_XDECREF d.data
    (Py_XDECREF d.units (Py_XDECREF d.label g))))

/-- The macro `Py_XDECREF` applied to the object held in `idam_Data.dim`.  The
list and its Dimension objects carry no modelled count: the record is taken to
hold the only reference to them, so that releasing the list deallocates it and
runs `Dimension_dealloc` on each filled slot, last slot first as `list_dealloc`
does.  `NULL` and `Py_None` are unaffected. -/
def Py_XDECREF_dim (o : DimObj) (g : State) : State :=
  match o with
  | .list items =>
    items.foldr (fun it g => match it with
      | some d => Dimension_dealloc d g
      | none => g) g
  | _ => g

/-- The function `Data_dealloc` (lines 418-438): one `Py_XDECREF` for each of
`name`, `source`, `label`, `units`, `desc`, `dim`, `time`, `errl`, `errh`,
`data`, in that order; `tp_free` then releases the record itself. -/
def Data_dealloc (self : idam_Data) (g : State) : State :=
  let g := Py_XDECREF self.name g
  let g := Py_XDECREF self.source g
  let g := Py_XDECREF self.label g
  let g := Py_XDECREF self.units g
  let g := Py_XDECREF self.desc g
  let g := Py_XDECREF_dim self.dim g
  let g := Py_XDECREF self.time g
  let g := Py_XDECREF self.errl g
  let g := Py_XDECREF self.errh g
  Py_XDECREF self.data g

/-- The statement `Py_XDECREF(self)` on the Data record: its count drops by one
and, when it reaches 0, `Data_dealloc` runs.  A record left with count 0 has
been deallocated: its fields are then no longer anybody's to read. -/
def Py_XDECREF_self (self : idam_Data) (g : State) : idam_Data × State :=
  ({ self with ob_refcnt := self.ob_refcnt - 1 },
    if self.ob_refcnt - 1 = 0 then Data_dealloc self g else g)

/-- The call `PyErr_SetString(PyExc_RuntimeError, msg)`. -/
def PyErr_SetString (msg : String) (g : State) : State :=
  { g with pyerr := some msg }

/-- The exit `Py_XDECREF(self); PyErr_SetString(PyExc_RuntimeError, msg);` that
precedes every `return -1` after the status check: the record and the state it
leaves. -/
def bail (msg : String) (self : idam_Data) (g : State) : idam_Data × State :=
  ((Py_XDECREF_self self g).1, PyErr_SetString msg (Py_XDECREF_self self g).2)

/-- Append one entry to the access log. -/
def note (x : Access) (g : State) : State :=
  { g with accesses := g.accesses ++ [x] }

/-- Number of elements of an array of the given shape. -/
def numel (shape : List Int) : Nat :=
  shape.foldr (fun d n => d.toNat * n) 1

/-- The call `PyArray_SimpleNew(nd, dims, PyArray_FLOAT)`.  Whether the request
succeeds (memory, or NumPy's own checks of its arguments) is decided by the
allocation oracle.  On success: a new array with reference count 1, shape
`dims[0..nd)` and storage for `numel` samples (uninitialised in NumPy, zeros
here until the client fills it).  On failure: `NULL`.  `PyArray_Return` is the
identity on the reference (for a 0-d array NumPy hands back the array scalar
of the same shape `()` and value). -/
def PyArray_SimpleNew (env : Env) (nd : Int) (dims : List Int) (g : State) :
    Option Nat × State :=
  if env.allocOk g.nalloc then
    (some g.heap.length,
      { g with
        heap := g.heap ++ [{ ob_refcnt := 1, shape := dims.take nd.toNat,
                             data := List.replicate (numel (dims.take nd.toNat)) 0 }],
        nalloc := g.nalloc + 1 })
  else
    (none, { g with nalloc := g.nalloc + 1 })

/-- The call `PyArray_SimpleNew(nd, &dimsize[first], PyArray_FLOAT)` on the
buffer `dimsize`: NumPy reads the `nd` entries `dimsize[first .. first+nd)`,
which is entered in the access log. -/
def PyArray_SimpleNew_dimsize (env : Env) (nd : Int) (dimsize : List Int) (first : Nat)
    (g : State) : Option Nat × State :=
  PyArray_SimpleNew env nd (dimsize.drop first) (note (.dimsize first nd) g)

/-- The call `PyList_New(n)`: a list of `n` empty slots, or `NULL` when the
allocation oracle refuses the request. -/
def PyList_New (env : Env) (n : Int) (g : State) : DimObj × State :=
  if env.allocOk g.nalloc then
    (.list (List.replicate n.toNat none), { g with nalloc := g.nalloc + 1 })
  else
    (.null, { g with nalloc := g.nalloc + 1 })

/-- The macro `PyList_SET_ITEM(list, i, item)`. -/
def PyList_SET_ITEM (l : DimObj) (i : Nat) (d : idam_Dimension) : DimObj :=
  match l with
  | .list items => .list (items.set i (some d))
  | o => o

/-- Let the client write into the storage of heap array `id`, and log the call. -/
def fillArray (id : Nat) (f : List Sample → List Sample) (c : ClientCall) (g : State) :
    State :=
  { g with
    heap := (match g.heap[id]? with
             | some a => g.heap.set id { a with data := f a.data }
             | none => g.heap),
    calls := g.calls ++ [c] }

/-- The object built by `Dimension_new`. -/
def Dimension_new : idam_Dimension :=
  { label := .str "No data", units := .str "No units",
    data := .none, errl := .none, errh := .none }

/-- The object built by `Data_new`, with reference count 1. -/
def Data_new : idam_Data :=
  { ob_refcnt := 1, name := .str "", source := .str "",
    label := .str "No data", units := .str "No units", desc := .str "No description",
    dim := .none, order := 0, time := .none, errl := .none, errh := .none,
    data := .none }

/-- The repeated block "Restore host and port":
`if(port > 0) putIdamServerPort(tmpport); if(host != NULL) putIdamServerHost(tmphost);` -/
def restoreServer (a : Args) (tmpport : Int) (tmphost : String) (g : State) : State :=
  let g := if a.port > 0 then { g with server_port := tmpport } else g
  if a.host.isSome then { g with server_host := tmphost } else g

/-- The loop `for(i=0;i<rank;i++) dimsize[rank-1-i] = getIdamDimNum(handle, i);`
over the 8-entry buffer `dimsize`; `n` iterations remain, the next index is `i`.
A write outside the buffer gives `none`. -/
def fillDimsize (cl : Client) (handle rank : Int) :
    Nat → Nat → List Int → Option (List Int)
  | 0, _, ds => some ds
  | n + 1, i, ds =>
    if 0 ≤ rank - 1 - (i : Int) ∧ rank - 1 - (i : Int) < 8 then
      fillDimsize cl handle rank n (i + 1)
        (ds.set (rank - 1 - (i : Int)).toNat (cl.getIdamDimNum handle i))
    else none

/-- Lines 624-676: the errors of the primary data. -/
def readErrors (env : Env) (a : Args) (tmpport : Int) (tmphost : String)
    (handle rank : Int) (dimsize : List Int) (self : idam_Data) (g : State) : Flow :=
  let cl := env.client
  if cl.getIdamErrorType handle ≠ env.TYPE_UNKNOWN then
    let tmp := self.errl
    match PyArray_SimpleNew_dimsize env rank dimsize 0 g with
    | (none, g) =>
      .fail
        (bail "Could not create NumPy array for error array" self
          (restoreServer a tmpport tmphost g)).1
        (bail "Could not create NumPy array for error array" self
          (restoreServer a tmpport tmphost g)).2
    | (some el, g) =>
      let g := fillArray el (cl.getIdamFloatAsymmetricError handle 0)
        (.getIdamFloatAsymmetricError handle 0) g
      let self := { self with errl := .arr el }
      let g := Py_XDECREF tmp g
      let tmp := self.errh
      if cl.getIdamErrorAsymmetry handle = 0 then
        let self := { self with errh := self.errl }
        let g := Py_INCREF self.errh g
        .cont self (Py_XDECREF tmp g)
      else
        match PyArray_SimpleNew_dimsize env rank dimsize 0 g with
        | (none, g) =>
          .fail
            (bail "Could not create NumPy array for error array" self
              (restoreServer a tmpport tmphost g)).1
            (bail "Could not create NumPy array for error array" self
              (restoreServer a tmpport tmphost g)).2
        | (some eh, g) =>
          let g := fillArray eh (cl.getIdamFloatAsymmetricError handle 1)
            (.getIdamFloatAsymmetricError handle 1) g
          let self := { self with errh := .arr eh }
          .cont self (Py_XDECREF tmp g)
  else
    let tmp := self.errl
    let self := { self with errl := .none }
    let g := Py_XDECREF tmp g
    let tmp := self.errh
    let self := { self with errh := .none }
    .cont self (Py_XDECREF tmp g)

/-- Lines 758-767: the shortcut to the time data and `PyList_SET_ITEM`. -/
def dimFinish (order : Int) (i : Nat) (dim : idam_Dimension) (self : idam_Data)
    (g : State) : Flow :=
  if (i : Int) = order then
    let tmp2 := self.time
    let g := Py_INCREF dim.data g
    let self := { self with time := dim.data }
    let g := Py_XDECREF tmp2 g
    .cont { self with dim := PyList_SET_ITEM self.dim i dim } g
  else
    .cont { self with dim := PyList_SET_ITEM self.dim i dim } g

/-- Lines 695-767: the body of the dimension loop for output index `i`. -/
def dimBody (env : Env) (handle rank order : Int) (dimsize : List Int) (i : Nat)
    (self : idam_Data) (g : State) : Flow :=
  let cl := env.client
  let k : Int := rank - 1 - (i : Int)
  let dim := Dimension_new
  let g := note (.getIdamDimLabel handle k) g
  let dim := { dim with label := .str (cl.getIdamDimLabel handle k) }
  let g := note (.getIdamDimUnits handle k) g
  let dim := { dim with units := .str (cl.getIdamDimUnits handle k) }
  let tmp2 := dim.data
  match PyArray_SimpleNew_dimsize env 1 dimsize i g with
  | (none, g) =>
    .fail (bail "Could not create NumPy array for dimension" self g).1
      (bail "Could not create NumPy array for dimension" self g).2
  | (some da, g) =>
    let g := fillArray da (cl.getIdamFloatDimData handle k) (.getIdamFloatDimData handle k) g
    let g := note (.getIdamFloatDimData handle k) g
    let dim := { dim with data := .arr da }
    let g := Py_XDECREF tmp2 g
    let g := note (.getIdamDimErrorType handle k) g
    if cl.getIdamDimErrorType handle k ≠ env.TYPE_UNKNOWN then
      let tmp2 := dim.errl
      match PyArray_SimpleNew_dimsize env 1 dimsize i g with
      | (none, g) =>
        .fail (bail "Could not create NumPy array for dimension error" self g).1
          (bail "Could not create NumPy array for dimension error" self g).2
      | (some el, g) =>
        let g := fillArray el (cl.getIdamFloatDimAsymmetricError handle k 0)
          (.getIdamFloatDimAsymmetricError handle k 0) g
        let g := note (.getIdamFloatDimAsymmetricError handle k 0) g
        let dim := { dim with errl := .arr el }
        let g := Py_XDECREF tmp2 g
        let tmp2 := dim.errh
        let g := note (.getIdamDimErrorAsymmetry handle k) g
        if cl.getIdamDimErrorAsymmetry handle k = 0 then
          let dim := { dim with errh := dim.errl }
          let g := Py_INCREF self.errh g
          dimFinish order i dim self (Py_XDECREF tmp2 g)
        else
          match PyArray_SimpleNew_dimsize env 1 dimsize i g with
          | (none, g) =>
            .fail (bail "Could not create NumPy array for dimension error" self g).1
              (bail "Could not create NumPy array for dimension error" self g).2
          | (some eh, g) =>
            let g := fillArray eh (cl.getIdamFloatDimAsymmetricError handle k 1)
              (.getIdamFloatDimAsymmetricError handle k 1) g
            let g := note (.getIdamFloatDimAsymmetricError handle k 1) g
            let dim := { dim with errh := .arr eh }
            dimFinish order i dim self (Py_XDECREF tmp2 g)
    else
      let tmp2 := dim.errl
      let dim := { dim with errl := .none }
      let g := Py_XDECREF tmp2 g
      let tmp2 := dim.errh
      let dim := { dim with errh := .none }
      dimFinish order i dim self (Py_XDECREF tmp2 g)

/-- The loop `for(i=0;i<rank;i++) { ... }` of lines 694-768; `n` iterations
remain and the next index is `i`. -/
def dimLoop (env : Env) (handle rank order : Int) (dimsize : List Int) :
    Nat → Nat → idam_Data → State → Flow
  | 0, _, self, g => .cont self g
  | n + 1, i, self, g =>
    match dimBody env handle rank order dimsize i self g with
    | .fail self g => .fail self g
    | .cont self g => dimLoop env handle rank order dimsize n (i + 1) self g

/-- Lines 597-783 of `Data_init`, entered once the element count is known to
be positive and `dimsize` has been filled. -/
def initTail (env : Env) (a : Args) (tmpport : Int) (tmphost : String)
    (handle rank order : Int) (dimsize : List Int) (self : idam_Data) (g : State) :
    Int × idam_Data × State :=
  let cl := env.client
  let tmp := self.data
  match PyArray_SimpleNew_dimsize env rank dimsize 0 g with
  | (none, g) =>
    (-1, bail "Could not create NumPy array for data" self
      (restoreServer a tmpport tmphost g))
  | (some pa, g) =>
    let g := fillArray pa (cl.getIdamFloatData handle) (.getIdamFloatData handle) g
    let self := { self with data := .arr pa }
    let g := Py_XDECREF tmp g
    match readErrors env a tmpport tmphost handle rank dimsize self g with
    | .fail self g => (-1, self, g)
    | .cont self g =>
      let tmp := self.time
      let self := { self with time := .none }
      let g := Py_XDECREF tmp g
      let tmp := self.dim
      match PyList_New env rank g with
      | (.null, g) =>
        (-1, bail "Could not create list of dimensions" { self with dim := .null } g)
      | (l, g) =>
        let self := { self with dim := l }
        match dimLoop env handle rank order dimsize rank.toNat 0 self g with
        | .fail self g => (-1, self, g)
        | .cont self g =>
          let g := Py_XDECREF_dim tmp g
          let self := { self with order := order }
          let g := { g with calls := g.calls ++ [.idamFree handle] }
          (0, self, restoreServer a tmpport tmphost g)

/-- The function `Data_init` (lines 499-784), from the point where the
arguments have been parsed.  The result is the returned `int`, the record and
the global state, or `none` where the C text has no defined behaviour. -/
def Data_init (env : Env) (self : idam_Data) (a : Args) (g : State) :
    Option (Int × idam_Data × State) :=
  let cl := env.client
  let tmpport : Int := if a.port > 0 then g.server_port else -1
  let g := if a.port > 0 then { g with server_port := a.port } else g
  if a.host.isSome ∧ env.MAXNAME ≤ g.server_host.length then none
  else
    let tmphost : String := if a.host.isSome then g.server_host else ""
    let g := match a.host with
      | some h => { g with server_host := h }
      | none => g
    let handle := cl.idamGetAPI g.server_host g.server_port a.data a.source
    let g := { g with calls := g.calls ++ [.idamGetAPI g.server_host g.server_port a.data a.source] }
    if cl.getIdamSourceStatus handle = 0 then
      some (-1, self, PyErr_SetString (cl.getIdamErrorMsg handle)
        (restoreServer a tmpport tmphost g))
    else
      let tmp := self.name
      let self := { self with name := .str a.data }
      let g := Py_XDECREF tmp g
      let tmp := self.source
      let self := { self with source := .str a.source }
      let g := Py_XDECREF tmp g
      let tmp := self.label
      let self := { self with label := .str (cl.getIdamDataLabel handle) }
      let g := Py_XDECREF tmp g
      let tmp := self.units
      let self := { self with units := .str (cl.getIdamDataUnits handle) }
      let g := Py_XDECREF tmp g
      let tmp := self.desc
      let self := { self with desc := .str (cl.getIdamDataDesc handle) }
      let g := Py_XDECREF tmp g
      if cl.getIdamDataNum handle ≤ 0 then
        some (-1, bail (cl.getIdamErrorMsg handle) self (restoreServer a tmpport tmphost g))
      else
        let rank := cl.getIdamRank handle
        let order := cl.getIdamOrder handle
        let order := cint (rank - 1 - order)
        match fillDimsize cl handle rank rank.toNat 0 (List.replicate 8 0) with
        | none => none
        | some dimsize =>
          some (initTail env a tmpport tmphost handle rank order dimsize self g)

/-! ## Predicates used to state what `Data_init` builds -/

/-- Heap and globals relation kept by every statement after the request: server
host, port and error indicator are untouched, and every array already in the
heap keeps its identity, shape and contents. -/
structure Frame (g g' : State) : Prop where
  host : g'.server_host = g.server_host
  port : g'.server_port = g.server_port
  err : g'.pyerr = g.pyerr
  len : g.heap.length ≤ g'.heap.length
  keep : ∀ (id : Nat) (a : NdArray), g.heap[id]? = some a →
    ∃ b : NdArray, g'.heap[id]? = some b ∧ b.shape = a.shape ∧ b.data = a.data

/-- The object `o` is an array in the heap of `g` with this shape and contents. -/
def HasArray (g : State) (o : PyObj) (shape : List Int) (data : List Sample) : Prop :=
  ∃ (id : Nat) (a : NdArray), o = .arr id ∧ g.heap[id]? = some a ∧ a.shape = shape ∧ a.data = data

/-- The calls logged between `g` and `g'` all satisfy `P`. -/
def CallsExt (P : ClientCall → Prop) (g g' : State) : Prop :=
  ∃ cs, g'.calls = g.calls ++ cs ∧ ∀ c ∈ cs, P c

/-- The call `c` is one of the buffer requests for native axis `k`. -/
def isDimCall (handle k : Int) (c : ClientCall) : Prop :=
  c = .getIdamFloatDimData handle k ∨ ∃ s, c = .getIdamFloatDimAsymmetricError handle k s

/-- The dimension record `d` is what the loop body builds for output index `i`
from native axis `rank - 1 - i`, with its arrays present in the heap of `g`. -/
def DimOk (env : Env) (handle rank : Int) (dimsize : List Int) (i : Nat)
    (d : idam_Dimension) (g : State) : Prop :=
  let cl := env.client
  let k : Int := rank - 1 - (i : Int)
  let shape := (dimsize.drop i).take 1
  let zeros := List.replicate (numel shape) 0
  d.label = .str (cl.getIdamDimLabel handle k) ∧
  d.units = .str (cl.getIdamDimUnits handle k) ∧
  HasArray g d.data shape (cl.getIdamFloatDimData handle k zeros) ∧
  (cl.getIdamDimErrorType handle k = env.TYPE_UNKNOWN → d.errl = .none ∧ d.errh = .none) ∧
  (cl.getIdamDimErrorType handle k ≠ env.TYPE_UNKNOWN →
    HasArray g d.errl shape (cl.getIdamFloatDimAsymmetricError handle k 0 zeros) ∧
    (cl.getIdamDimErrorAsymmetry handle k = 0 → d.errh = d.errl) ∧
    (cl.getIdamDimErrorAsymmetry handle k ≠ 0 → d.errh ≠ d.errl ∧
      HasArray g d.errh shape (cl.getIdamFloatDimAsymmetricError handle k 1 zeros)))

/-- The fields of the record that the dimension loop never assigns. -/
def SameCore (s s' : idam_Data) : Prop :=
  s'.name = s.name ∧ s'.source = s.source ∧ s'.label = s.label ∧ s'.units = s.units ∧
  s'.desc = s.desc ∧ s'.order = s.order ∧ s'.errl = s.errl ∧ s'.errh = s.errh ∧
  s'.data = s.data

/-- The call `c` asks for an error buffer of the primary data. -/
def isErrCall (handle : Int) (c : ClientCall) : Prop :=
  ∃ s, c = .getIdamFloatAsymmetricError handle s

/-- The fields assigned before the element-count check, and `order`. -/
def SameMeta (s s' : idam_Data) : Prop :=
  s'.name = s.name ∧ s'.source = s.source ∧ s'.label = s.label ∧ s'.units = s.units ∧
  s'.desc = s.desc ∧ s'.order = s.order

/-- What a construction that reaches `return 0` has built, in terms of the
record and state on entry to line 597. -/
structure Built (env : Env) (a : Args) (tmpport : Int) (tmphost : String)
    (handle rank order : Int) (dimsize : List Int) (s s' : idam_Data)
    (g g' : State) : Prop where
  nameEq : s'.name = s.name
  sourceEq : s'.source = s.source
  labelEq : s'.label = s.label
  unitsEq : s'.units = s.units
  descEq : s'.desc = s.desc
  orderEq : s'.order = order
  refEq : s'.ob_refcnt = s.ob_refcnt
  dataArr : HasArray g' s'.data (dimsize.take rank.toNat)
    (env.client.getIdamFloatData handle (List.replicate (numel (dimsize.take rank.toNat)) 0))
  noErr : env.client.getIdamErrorType handle = env.TYPE_UNKNOWN →
    s'.errl = .none ∧ s'.errh = .none
  errArr : env.client.getIdamErrorType handle ≠ env.TYPE_UNKNOWN →
    HasArray g' s'.errl (dimsize.take rank.toNat)
      (env.client.getIdamFloatAsymmetricError handle 0
        (List.replicate (numel (dimsize.take rank.toNat)) 0)) ∧
    (env.client.getIdamErrorAsymmetry handle = 0 → s'.errh = s'.errl) ∧
    (env.client.getIdamErrorAsymmetry handle ≠ 0 → s'.errh ≠ s'.errl ∧
      HasArray g' s'.errh (dimsize.take rank.toNat)
        (env.client.getIdamFloatAsymmetricError handle 1
          (List.replicate (numel (dimsize.take rank.toNat)) 0)))
  dims : ∃ items, s'.dim = .list items ∧ items.length = rank.toNat ∧
    (∀ j, j < rank.toNat → ∃ d, items[j]? = some (some d) ∧
      DimOk env handle rank dimsize j d g' ∧ ((j : Int) = order → s'.time = d.data)) ∧
    ((∀ j, j < rank.toNat → (j : Int) ≠ order) → s'.time = .none)
  calls : ∃ cs, g'.calls = g.calls ++ cs ++ [.idamFree handle] ∧
    ∀ c ∈ cs, c = .getIdamFloatData handle ∨
      (isErrCall handle c ∧ env.client.getIdamErrorType handle ≠ env.TYPE_UNKNOWN) ∨
      ∃ j : Nat, j < rank.toNat ∧ isDimCall handle (rank - 1 - (j : Int)) c
  hostEq : g'.server_host = if a.host.isSome then tmphost else g.server_host
  portEq : g'.server_port = if a.port > 0 then tmpport else g.server_port
  pyerrEq : g'.pyerr = g.pyerr

/-- The calls logged between `g` and `g'` all satisfy `P` and the accesses
entered between them all satisfy `Q`. -/
def Logs (P : ClientCall → Prop) (Q : Access → Prop) (g g' : State) : Prop :=
  (∃ cs, g'.calls = g.calls ++ cs ∧ ∀ c ∈ cs, P c) ∧
  ∃ xs, g'.accesses = g.accesses ++ xs ∧ ∀ x ∈ xs, Q x

/-- The access is in bounds: every buffer entry read, `dimsize[first + j]` for
`j < count`, lies inside the 8-entry buffer, and the native axis index handed to
the client lies in `[0, rank)`. -/
def Access.inBounds (rank : Int) : Access → Prop
  | .dimsize first count => ∀ j : Nat, j < count.toNat → 0 ≤ first + j ∧ first + j < 8
  | .getIdamDimLabel _ axis => 0 ≤ axis ∧ axis < rank
  | .getIdamDimUnits _ axis => 0 ≤ axis ∧ axis < rank
  | .getIdamFloatDimData _ axis => 0 ≤ axis ∧ axis < rank
  | .getIdamDimErrorType _ axis => 0 ≤ axis ∧ axis < rank
  | .getIdamFloatDimAsymmetricError _ axis _ => 0 ≤ axis ∧ axis < rank
  | .getIdamDimErrorAsymmetry _ axis => 0 ≤ axis ∧ axis < rank

instance Access.decInBounds (rank : Int) : (x : Access) → Decidable (x.inBounds rank)
  | .dimsize first count =>
    inferInstanceAs (Decidable (∀ j : Nat, j < count.toNat → 0 ≤ first + j ∧ first + j < 8))
  | .getIdamDimLabel _ axis => inferInstanceAs (Decidable (0 ≤ axis ∧ axis < rank))
  | .getIdamDimUnits _ axis => inferInstanceAs (Decidable (0 ≤ axis ∧ axis < rank))
  | .getIdamFloatDimData _ axis => inferInstanceAs (Decidable (0 ≤ axis ∧ axis < rank))
  | .getIdamDimErrorType _ axis => inferInstanceAs (Decidable (0 ≤ axis ∧ axis < rank))
  | .getIdamFloatDimAsymmetricError _ axis _ =>
    inferInstanceAs (Decidable (0 ≤ axis ∧ axis < rank))
  | .getIdamDimErrorAsymmetry _ axis => inferInstanceAs (Decidable (0 ≤ axis ∧ axis < rank))

/-- The access `x` is one made by the loop body for output index `i` and native
axis `k`: a read of the single entry `dimsize[i]`, or a call for axis `k`. -/
def isDimAccess (handle k : Int) (i : Nat) (x : Access) : Prop :=
  x = .dimsize i 1 ∨ x = .getIdamDimLabel handle k ∨ x = .getIdamDimUnits handle k ∨
  x = .getIdamFloatDimData handle k ∨ x = .getIdamDimErrorType handle k ∨
  x = .getIdamDimErrorAsymmetry handle k ∨
  ∃ s, x = .getIdamFloatDimAsymmetricError handle k s

/-! ## The pieces of `Data_init` between its return statements -/

/-- The server port in force when the request is issued (lines 539-542). -/
def portInForce (a : Args) (g : State) : Int :=
  if a.port > 0 then a.port else g.server_port

/-- The server host in force when the request is issued (lines 543-546). -/
def hostInForce (a : Args) (g : State) : String :=
  match a.host with
  | some h => h
  | none => g.server_host

/-- The handle `idamGetAPI(data, source)` returns at line 551. -/
def handleOf (env : Env) (a : Args) (g : State) : Int :=
  env.client.idamGetAPI (hostInForce a g) (portInForce a g) a.data a.source

/-- The value of `tmpport` after line 542. -/
def savedPort (a : Args) (g : State) : Int :=
  if a.port > 0 then g.server_port else -1

/-- The contents of `tmphost` after line 546 (never read when no host is given). -/
def savedHost (a : Args) (g : State) : String :=
  if a.host.isSome then g.server_host else ""

/-- The global state right after line 551. -/
def requestState (a : Args) (g : State) : State :=
  { g with
    server_host := hostInForce a g
    server_port := portInForce a g
    calls := g.calls ++ [.idamGetAPI (hostInForce a g) (portInForce a g) a.data a.source] }

/-- The record after lines 565-582. -/
def metaSelf (env : Env) (a : Args) (g : State) (self : idam_Data) : idam_Data :=
  { self with
    name := .str a.data
    source := .str a.source
    label := .str (env.client.getIdamDataLabel (handleOf env a g))
    units := .str (env.client.getIdamDataUnits (handleOf env a g))
    desc := .str (env.client.getIdamDataDesc (handleOf env a g)) }

/-- The global state after lines 565-582: the five replaced objects have lost
one reference each. -/
def metaState (a : Args) (g : State) (self : idam_Data) : State :=
  Py_XDECREF self.desc (Py_XDECREF self.units (Py_XDECREF self.label
    (Py_XDECREF self.source (Py_XDECREF self.name (requestState a g)))))

/-- The native axis sizes `s[0], ..., s[R-1]` reported for `handle`. -/
def nativeSizes (cl : Client) (handle rank : Int) : List Int :=
  (List.range rank.toNat).map (fun j : Nat => cl.getIdamDimNum handle (j : Int))

/-! ## Fake clients and example runs -/

/-- A fake IDAM client: one handle (7) with the given status, element count,
rank, native time index, error type and asymmetry flags and native axis
sizes; buffers are filled with values that tell the requests apart. -/
def fakeClient (status num rank order errType asym : Int) (sizes : List Int) : Client where
  idamGetAPI := fun _ _ _ _ => 7
  getIdamSourceStatus := fun _ => status
  getIdamErrorMsg := fun _ => "no such signal"
  getIdamDataLabel := fun _ => "Ip"
  getIdamDataUnits := fun _ => "kA"
  getIdamDataDesc := fun _ => "plasma current"
  getIdamDataNum := fun _ => num
  getIdamRank := fun _ => rank
  getIdamOrder := fun _ => order
  getIdamDimNum := fun _ i => sizes.getD i.toNat 0
  getIdamErrorType := fun _ => errType
  getIdamErrorAsymmetry := fun _ => asym
  getIdamFloatData := fun _ b => List.range b.length
  getIdamFloatAsymmetricError := fun _ side b => b.map (fun _ => 100 + side.toNat)
  getIdamDimLabel := fun _ k => if k = 1 then "time" else "x"
  getIdamDimUnits := fun _ k => if k = 1 then "s" else "m"
  getIdamFloatDimData := fun _ k b => (List.range b.length).map (fun n => 10 * k.toNat + n)
  getIdamDimErrorType := fun _ _ => 0
  getIdamDimErrorAsymmetry := fun _ _ => 0
  getIdamFloatDimAsymmetricError := fun _ k side b => b.map (fun _ => 200 + 10 * k.toNat + side.toNat)

/-- An environment around a fake client in which the first `nOk` checked
allocations succeed; `MAXNAME` is 1024 and `TYPE_UNKNOWN` is 0. -/
def fakeEnv (cl : Client) (nOk : Nat) : Env :=
  { client := cl, allocOk := fun n => decide (n < nOk), MAXNAME := 1024, TYPE_UNKNOWN := 0 }

/-- An environment around a fake client in which every allocation succeeds. -/
def fakeEnvOk (cl : Client) : Env :=
  { client := cl, allocOk := fun _ => true, MAXNAME := 1024, TYPE_UNKNOWN := 0 }

/-- Global state with server host `"a"`, port 1, empty log and empty heap. -/
def st0 : State :=
  { server_host := "a", server_port := 1, calls := [], heap := [], nalloc := 0, pyerr := none,
    accesses := [] }

/-- The call `idam.Data("ip", 15100)`. -/
def argsPlain : Args := { data := "ip", source := "15100", host := none, port := -1 }

/-- The call `idam.Data("ip", 15100, host="b", port=2)`. -/
def argsOverride : Args := { data := "ip", source := "15100", host := some "b", port := 2 }

/-- The spec's example client: rank 3, native sizes `[2,3,4]`, native time
axis 1, no error data. -/
def clientA : Client := fakeClient 1 24 3 1 0 0 [2, 3, 4]

/-- The record `Data_init` builds from `clientA`. -/
def recA : idam_Data :=
  { ob_refcnt := 1, name := .str "ip", source := .str "15100", label := .str "Ip",
    units := .str "kA", desc := .str "plasma current",
    dim := .list [some { label := .str "x", units := .str "m", data := .arr 1,
                         errl := .none, errh := .none },
                  some { label := .str "time", units := .str "s", data := .arr 2,
                         errl := .none, errh := .none },
                  some { label := .str "x", units := .str "m", data := .arr 3,
                         errl := .none, errh := .none }],
    order := 1, time := .arr 2, errl := .none, errh := .none, data := .arr 0 }

/-- The global state after `Data_init` on `clientA` from `st0`. -/
def stA : State :=
  { server_host := "a", server_port := 1,
    calls := [.idamGetAPI "a" 1 "ip" "15100", .getIdamFloatData 7,
              .getIdamFloatDimData 7 2, .getIdamFloatDimData 7 1,
              .getIdamFloatDimData 7 0, .idamFree 7],
    heap := [{ ob_refcnt := 1, shape := [4, 3, 2], data := List.range 24 },
             { ob_refcnt := 1, shape := [4], data := [20, 21, 22, 23] },
             { ob_refcnt := 2, shape := [3], data := [10, 11, 12] },
             { ob_refcnt := 1, shape := [2], data := [0, 1] }],
    nalloc := 5, pyerr := none,
    accesses := [.dimsize 0 3, .getIdamDimLabel 7 2, .getIdamDimUnits 7 2, .dimsize 0 1,
                 .getIdamFloatDimData 7 2, .getIdamDimErrorType 7 2,
                 .getIdamDimLabel 7 1, .getIdamDimUnits 7 1, .dimsize 1 1,
                 .getIdamFloatDimData 7 1, .getIdamDimErrorType 7 1,
                 .getIdamDimLabel 7 0, .getIdamDimUnits 7 0, .dimsize 2 1,
                 .getIdamFloatDimData 7 0, .getIdamDimErrorType 7 0] }

/-- A client of rank 1 (size 2) that reports native time index -1. -/
def clientNoTime : Client := fakeClient 1 2 1 (-1) 0 0 [2]

/-- The record `Data_init` builds from `clientNoTime`. -/
def recNoTime : idam_Data :=
  { ob_refcnt := 1, name := .str "ip", source := .str "15100", label := .str "Ip",
    units := .str "kA", desc := .str "plasma current",
    dim := .list [some { label := .str "x", units := .str "m", data := .arr 1,
                         errl := .none, errh := .none }],
    order := 1, time := .none, errl := .none, errh := .none, data := .arr 0 }

/-- The global state after `Data_init` on `clientNoTime` from `st0`. -/
def stNoTime : State :=
  { server_host := "a", server_port := 1,
    calls := [.idamGetAPI "a" 1 "ip" "15100", .getIdamFloatData 7,
              .getIdamFloatDimData 7 0, .idamFree 7],
    heap := [{ ob_refcnt := 1, shape := [2], data := [0, 1] },
             { ob_refcnt := 1, shape := [2], data := [0, 1] }],
    nalloc := 3, pyerr := none,
    accesses := [.dimsize 0 1, .getIdamDimLabel 7 0, .getIdamDimUnits 7 0, .dimsize 0 1,
                 .getIdamFloatDimData 7 0, .getIdamDimErrorType 7 0] }

/-- The client of `clientA` with the handle status reported invalid. -/
def clientInvalid : Client := fakeClient 0 24 3 1 0 0 [2, 3, 4]

/-- The client of `clientA` with an element count of zero. -/
def clientEmpty : Client := fakeClient 1 0 3 1 0 0 [2, 3, 4]

/-- The global state after the failing `Data_init` on `clientInvalid` or
`clientEmpty` from `st0` with the host and port overridden. -/
def stFailed : State :=
  { server_host := "a", server_port := 1, calls := [.idamGetAPI "b" 2 "ip" "15100"],
    heap := [], nalloc := 0, pyerr := some "no such signal",
    accesses := [] }

/-- The contents of the record when the failing `Data_init` on `clientEmpty`,
entered with the only reference to `Data_new`, released it. -/
def recEmpty : idam_Data :=
  { ob_refcnt := 0, name := .str "ip", source := .str "15100", label := .str "Ip",
    units := .str "kA", desc := .str "plasma current", dim := .none, order := 0,
    time := .none, errl := .none, errh := .none, data := .none }

/-- A rank-1 client (size 3) without error data. -/
def clientLine : Client := fakeClient 1 3 1 0 0 0 [3]

/-- A rank-1 client (size 3) with symmetric error data. -/
def clientSym : Client := fakeClient 1 3 1 0 1 0 [3]

/-- The record `Data_init` builds from `clientSym`. -/
def recSym : idam_Data :=
  { ob_refcnt := 1, name := .str "ip", source := .str "15100", label := .str "Ip",
    units := .str "kA", desc := .str "plasma current",
    dim := .list [some { label := .str "x", units := .str "m", data := .arr 2,
                         errl := .none, errh := .none }],
    order := 0, time := .arr 2, errl := .arr 1, errh := .arr 1, data := .arr 0 }

/-- The global state after `Data_init` on `clientSym` from `st0`. -/
def stSym : State :=
  { server_host := "a", server_port := 1,
    calls := [.idamGetAPI "a" 1 "ip" "15100", .getIdamFloatData 7,
              .getIdamFloatAsymmetricError 7 0, .getIdamFloatDimData 7 0, .idamFree 7],
    heap := [{ ob_refcnt := 1, shape := [3], data := [0, 1, 2] },
             { ob_refcnt := 2, shape := [3], data := [100, 100, 100] },
             { ob_refcnt := 2, shape := [3], data := [0, 1, 2] }],
    nalloc := 4, pyerr := none,
    accesses := [.dimsize 0 1, .dimsize 0 1, .getIdamDimLabel 7 0, .getIdamDimUnits 7 0,
                 .dimsize 0 1, .getIdamFloatDimData 7 0,
                 .getIdamDimErrorType 7 0] }

/-- A rank-1 client (size 3) with asymmetric error data. -/
def clientAsym : Client := fakeClient 1 3 1 0 1 1 [3]

/-- The record `Data_init` builds from `clientAsym`. -/
def recAsym : idam_Data :=
  { ob_refcnt := 1, name := .str "ip", source := .str "15100", label := .str "Ip",
    units := .str "kA", desc := .str "plasma current",
    dim := .list [some { label := .str "x", units := .str "m", data := .arr 3,
                         errl := .none, errh := .none }],
    order := 0, time := .arr 3, errl := .arr 1, errh := .arr 2, data := .arr 0 }

/-- The global state after `Data_init` on `clientAsym` from `st0`. -/
def stAsym : State :=
  { server_host := "a", server_port := 1,
    calls := [.idamGetAPI "a" 1 "ip" "15100", .getIdamFloatData 7,
              .getIdamFloatAsymmetricError 7 0, .getIdamFloatAsymmetricError 7 1,
              .getIdamFloatDimData 7 0, .idamFree 7],
    heap := [{ ob_refcnt := 1, shape := [3], data := [0, 1, 2] },
             { ob_refcnt := 1, shape := [3], data := [100, 100, 100] },
             { ob_refcnt := 1, shape := [3], data := [101, 101, 101] },
             { ob_refcnt := 2, shape := [3], data := [0, 1, 2] }],
    nalloc := 5, pyerr := none,
    accesses := [.dimsize 0 1, .dimsize 0 1, .dimsize 0 1, .getIdamDimLabel 7 0,
                 .getIdamDimUnits 7 0, .dimsize 0 1,
                 .getIdamFloatDimData 7 0, .getIdamDimErrorType 7 0] }

/-- The time alias claimed of every successful construction with rank `rank`
and native time index `t`: `order` is `rank-1-t` and `time` is the very array
object held by `dim[rank-1-t].data`. -/
def TimeAliased (rank t : Int) (self' : idam_Data) : Prop :=
  self'.order = rank - 1 - t ∧
  ∃ items d id, self'.dim = .list items ∧ items[(rank - 1 - t).toNat]? = some (some d) ∧
    d.data = .arr id ∧ self'.time = .arr id

/-! ## Further functions of the module, reference accounting, more example runs -/

/-- The function `idam_setHost` (lines 74-91) after `PyArg_ParseTuple`: `port`
is `none` when the optional argument is not given, and the C variable then
keeps its initial value -1.  `putIdamServerPort` and `putIdamServerHost` set
the client's globals. -/
def idam_setHost (host : String) (port : Option Int) (g : State) : State :=
  let port : Int := match port with
    | some p => p
    | none => -1
  let g := if port > 0 then { g with server_port := port } else g
  { g with server_host := host }

/-- The loop `for(i=0;i<rank;i++) dimsize[i] = getIdamDimNum(handle, i);` of
`idam_readData` (lines 207-210) over the 8-entry buffer `dimsize`; `n`
iterations remain, the next index is `i`.  A write outside the buffer gives
`none`. -/
def readDimsize (cl : Client) (handle : Int) : Nat → Nat → List Int → Option (List Int)
  | 0, _, ds => some ds
  | n + 1, i, ds =>
    if i < 8 then readDimsize cl handle n (i + 1) (ds.set i (cl.getIdamDimNum handle i))
    else none

/-- The function `idam_readData` (lines 181-221) for a parsed `handle`: the
returned object (`Py_None`, `NULL` or the new array) and the global state, or
`none` where the C text has no defined behaviour. -/
def idam_readData (env : Env) (handle : Int) (g : State) : Option (PyObj × State) :=
  let cl := env.client
  if cl.getIdamDataNum handle ≤ 0 then some (.none, g)
  else
    let rank := cl.getIdamRank handle
    match readDimsize cl handle rank.toNat 0 (List.replicate 8 0) with
    | none => none
    | some dimsize =>
      match PyArray_SimpleNew_dimsize env rank dimsize 0 g with
      | (none, g) => some (.null, g)
      | (some result, g) =>
        some (.arr result,
          fillArray result (cl.getIdamFloatData handle) (.getIdamFloatData handle) g)

/-- A rank-1 client (size 3) whose axis has symmetric error data. -/
def clientDimSym : Client := { clientLine with getIdamDimErrorType := fun _ _ => 1 }

/-- The dimension record `Data_init` builds from `clientDimSym`. -/
def dimSym : idam_Dimension :=
  { label := .str "x", units := .str "m", data := .arr 1, errl := .arr 2, errh := .arr 2 }

/-- The record `Data_init` builds from `clientDimSym`. -/
def recDimSym : idam_Data :=
  { ob_refcnt := 1, name := .str "ip", source := .str "15100", label := .str "Ip",
    units := .str "kA", desc := .str "plasma current", dim := .list [some dimSym],
    order := 0, time := .arr 1, errl := .none, errh := .none, data := .arr 0 }

/-- The global state after `Data_init` on `clientDimSym` from `st0`. -/
def stDimSym : State :=
  { server_host := "a", server_port := 1,
    calls := [.idamGetAPI "a" 1 "ip" "15100", .getIdamFloatData 7,
              .getIdamFloatDimData 7 0, .getIdamFloatDimAsymmetricError 7 0 0, .idamFree 7],
    heap := [{ ob_refcnt := 1, shape := [3], data := [0, 1, 2] },
             { ob_refcnt := 2, shape := [3], data := [0, 1, 2] },
             { ob_refcnt := 1, shape := [3], data := [200, 200, 200] }],
    nalloc := 4, pyerr := none,
    accesses := [.dimsize 0 1, .getIdamDimLabel 7 0, .getIdamDimUnits 7 0, .dimsize 0 1,
                 .getIdamFloatDimData 7 0, .getIdamDimErrorType 7 0,
                 .dimsize 0 1, .getIdamFloatDimAsymmetricError 7 0 0,
                 .getIdamDimErrorAsymmetry 7 0] }

/-- A rank-1 client (size 3) whose axis has asymmetric error data. -/
def clientDimAsym : Client :=
  { clientLine with
    getIdamDimErrorType := fun _ _ => 1
    getIdamDimErrorAsymmetry := fun _ _ => 1 }

/-- The record `Data_init` builds from `clientDimAsym`. -/
def recDimAsym : idam_Data :=
  { ob_refcnt := 1, name := .str "ip", source := .str "15100", label := .str "Ip",
    units := .str "kA", desc := .str "plasma current",
    dim := .list [some { label := .str "x", units := .str "m", data := .arr 1,
                         errl := .arr 2, errh := .arr 3 }],
    order := 0, time := .arr 1, errl := .none, errh := .none, data := .arr 0 }

/-- The global state after `Data_init` on `clientDimAsym` from `st0`. -/
def stDimAsym : State :=
  { server_host := "a", server_port := 1,
    calls := [.idamGetAPI "a" 1 "ip" "15100", .getIdamFloatData 7,
              .getIdamFloatDimData 7 0, .getIdamFloatDimAsymmetricError 7 0 0,
              .getIdamFloatDimAsymmetricError 7 0 1, .idamFree 7],
    heap := [{ ob_refcnt := 1, shape := [3], data := [0, 1, 2] },
             { ob_refcnt := 2, shape := [3], data := [0, 1, 2] },
             { ob_refcnt := 1, shape := [3], data := [200, 200, 200] },
             { ob_refcnt := 1, shape := [3], data := [201, 201, 201] }],
    nalloc := 5, pyerr := none,
    accesses := [.dimsize 0 1, .getIdamDimLabel 7 0, .getIdamDimUnits 7 0, .dimsize 0 1,
                 .getIdamFloatDimData 7 0, .getIdamDimErrorType 7 0,
                 .dimsize 0 1, .getIdamFloatDimAsymmetricError 7 0 0,
                 .getIdamDimErrorAsymmetry 7 0, .dimsize 0 1,
                 .getIdamFloatDimAsymmetricError 7 0 1] }

/-- Whether the reference `o` points at array `id`, as 0 or 1. -/
def refsIn (o : PyObj) (id : Nat) : Nat :=
  if o = .arr id then 1 else 0

/-- Number of fields of a Dimension record (`data`, `errl`, `errh`) that refer
to array `id`. -/
def dimensionRefs (d : idam_Dimension) (id : Nat) : Nat :=
  refsIn d.data id + refsIn d.errl id + refsIn d.errh id

/-- Number of Dimension fields in a dimension list that refer to array `id`. -/
def dimListRefs : List (Option idam_Dimension) → Nat → Nat
  | [], _ => 0
  | none :: rest, id => dimListRefs rest id
  | some d :: rest, id => dimensionRefs d id + dimListRefs rest id

/-- Number of record fields that refer to array `id`: `data`, `errl`, `errh`,
`time` of the Data record and `data`, `errl`, `errh` of each of its Dimensions. -/
def fieldRefs (s : idam_Data) (id : Nat) : Nat :=
  refsIn s.data id + refsIn s.errl id + refsIn s.errh id + refsIn s.time id +
    (match s.dim with
     | .list items => dimListRefs items id
     | _ => 0)

/-- The accounting invariant: every array at heap position `base` or later has
a reference count equal to the number of record fields that refer to it. -/
def refcountsBalanced (base : Nat) (s : idam_Data) (g : State) : Prop :=
  ∀ id ∈ List.range g.heap.length, base ≤ id →
    (g.heap[id]?).map NdArray.ob_refcnt = some ((fieldRefs s id : Nat) : Int)

/-- The global state a stretch of `Data_init` ends in, whichever way it ends. -/
def Flow.state : Flow → State
  | .cont _ g => g
  | .fail _ g => g

/-- A client that reports rank 9. -/
def clientWide : Client := fakeClient 1 9 9 0 0 0 []

theorem Frame.refl (g : State) : Frame g g :=
  ⟨rfl, rfl, rfl, le_rfl, fun _ a h => ⟨a, h, rfl, rfl⟩⟩

theorem Frame.trans {g₁ g₂ g₃ : State} (h₁ : Frame g₁ g₂) (h₂ : Frame g₂ g₃) :
    Frame g₁ g₃ := by
  refine ⟨h₂.host.trans h₁.host, h₂.port.trans h₁.port, h₂.err.trans h₁.err,
    h₁.len.trans h₂.len, ?_⟩
  intro id a ha
  obtain ⟨b, hb, hs, hd⟩ := h₁.keep id a ha
  obtain ⟨c, hc, hs', hd'⟩ := h₂.keep id b hb
  exact ⟨c, hc, hs'.trans hs, hd'.trans hd⟩

theorem adjRef_length (d : Int) (id : Nat) (h : List NdArray) :
    (adjRef d id h).length = h.length := by
  unfold adjRef
  split <;> simp

theorem adjRef_keep (d : Int) (id : Nat) (h : List NdArray) (j : Nat) (a : NdArray)
    (ha : h[j]? = some a) :
    ∃ b, (adjRef d id h)[j]? = some b ∧ b.shape = a.shape ∧ b.data = a.data := by
  unfold adjRef
  split
  · rename_i x hx
    by_cases hj : id = j
    · subst hj
      rw [ha] at hx
      cases hx
      have hlt : id < h.length := by
        by_contra hc
        rw [List.getElem?_eq_none (by omega)] at ha
        cases ha
      refine ⟨{ a with ob_refcnt := a.ob_refcnt + d }, ?_, rfl, rfl⟩
      simp [List.getElem?_set, hlt]
    · refine ⟨a, ?_, rfl, rfl⟩
      rw [List.getElem?_set_ne hj]
      exact ha
  · exact ⟨a, ha, rfl, rfl⟩

theorem Frame.incref (o : PyObj) (g : State) : Frame g (Py_INCREF o g) := by
  cases o <;> simp only [Py_INCREF] <;> try exact Frame.refl g
  exact ⟨rfl, rfl, rfl, by simp [adjRef_length], fun j a ha => adjRef_keep _ _ _ j a ha⟩

theorem Frame.decref (o : PyObj) (g : State) : Frame g (Py_XDECREF o g) := by
  cases o <;> simp only [Py_XDECREF] <;> try exact Frame.refl g
  exact ⟨rfl, rfl, rfl, by simp [adjRef_length], fun j a ha => adjRef_keep _ _ _ j a ha⟩

theorem HasArray.frame {g g' : State} {o : PyObj} {s : List Int} {d : List Sample}
    (h : HasArray g o s d) (hf : Frame g g') : HasArray g' o s d := by
  obtain ⟨id, a, ho, ha, hs, hd⟩ := h
  obtain ⟨b, hb, hs', hd'⟩ := hf.keep id a ha
  exact ⟨id, b, ho, hb, hs'.trans hs, hd'.trans hd⟩

theorem HasArray.lt {g : State} {id : Nat} {s : List Int} {d : List Sample}
    (h : HasArray g (.arr id) s d) : id < g.heap.length := by
  obtain ⟨id', a, ho, ha, -, -⟩ := h
  cases ho
  by_contra hc
  rw [List.getElem?_eq_none (by omega)] at ha
  cases ha

theorem CallsExt.nil (P : ClientCall → Prop) (g : State) : CallsExt P g g :=
  ⟨[], by simp, by simp⟩

theorem CallsExt.of_eq {P : ClientCall → Prop} {g g' : State} (h : g'.calls = g.calls) :
    CallsExt P g g' :=
  ⟨[], by simp [h], by simp⟩

theorem CallsExt.append {P : ClientCall → Prop} {g₁ g₂ g₃ : State}
    (h₁ : CallsExt P g₁ g₂) (h₂ : CallsExt P g₂ g₃) : CallsExt P g₁ g₃ := by
  obtain ⟨c₁, e₁, p₁⟩ := h₁
  obtain ⟨c₂, e₂, p₂⟩ := h₂
  refine ⟨c₁ ++ c₂, by rw [e₂, e₁, List.append_assoc], ?_⟩
  intro c hc
  rcases List.mem_append.mp hc with h | h
  · exact p₁ c h
  · exact p₂ c h

theorem CallsExt.mono {P Q : ClientCall → Prop} {g g' : State}
    (h : CallsExt P g g') (hPQ : ∀ c, P c → Q c) : CallsExt Q g g' := by
  obtain ⟨cs, e, p⟩ := h
  exact ⟨cs, e, fun c hc => hPQ c (p c hc)⟩

theorem Py_INCREF_calls (o : PyObj) (g : State) : (Py_INCREF o g).calls = g.calls := by
  cases o <;> rfl

theorem Py_XDECREF_calls (o : PyObj) (g : State) : (Py_XDECREF o g).calls = g.calls := by
  cases o <;> rfl

/-- A successful `PyArray_SimpleNew` followed by the client filling the new
array: the array is new, older arrays are untouched, one call is logged. -/
theorem alloc_fill {env : Env} {nd : Int} {dims : List Int} {g g₁ : State} {id : Nat}
    (f : List Sample → List Sample) (c : ClientCall)
    (h : PyArray_SimpleNew env nd dims g = (some id, g₁)) :
    id = g.heap.length ∧ Frame g (fillArray id f c g₁) ∧
      (fillArray id f c g₁).calls = g.calls ++ [c] ∧
      HasArray (fillArray id f c g₁) (.arr id) (dims.take nd.toNat)
        (f (List.replicate (numel (dims.take nd.toNat)) 0)) := by
  unfold PyArray_SimpleNew at h
  split at h
  · simp only [Prod.mk.injEq, Option.some.injEq] at h
    obtain ⟨rfl, rfl⟩ := h
    refine ⟨rfl, ⟨rfl, rfl, rfl, ?_, ?_⟩, ?_, ?_⟩
    · simp [fillArray]
    · intro j a ha
      have hlt : j < g.heap.length := by
        by_contra hc
        rw [List.getElem?_eq_none (by omega)] at ha
        cases ha
      refine ⟨a, ?_, rfl, rfl⟩
      simp only [fillArray, List.getElem?_concat_length]
      rw [List.getElem?_set_ne (by omega), List.getElem?_append_left hlt]
      exact ha
    · simp [fillArray]
    · refine ⟨_, ⟨1, dims.take nd.toNat,
        f (List.replicate (numel (dims.take nd.toNat)) 0)⟩, rfl, ?_, rfl, rfl⟩
      simp [fillArray]
  · simp at h

theorem alloc_fail {env : Env} {nd : Int} {dims : List Int} {g g₁ : State}
    (h : PyArray_SimpleNew env nd dims g = (none, g₁)) :
    env.allocOk g.nalloc = false ∧ Frame g g₁ ∧ g₁.calls = g.calls := by
  unfold PyArray_SimpleNew at h
  split at h
  · simp at h
  · rename_i hok
    simp only [Prod.mk.injEq, true_and] at h
    subst h
    exact ⟨by simpa using hok, ⟨rfl, rfl, rfl, le_rfl, fun _ a ha => ⟨a, ha, rfl, rfl⟩⟩, rfl⟩

theorem DimOk.stable {env : Env} {handle rank : Int} {dimsize : List Int} {i : Nat}
    {d : idam_Dimension} {g g' : State} (h : DimOk env handle rank dimsize i d g)
    (hf : Frame g g') : DimOk env handle rank dimsize i d g' := by
  obtain ⟨h1, h2, h3, h4, h5⟩ := h
  refine ⟨h1, h2, h3.frame hf, h4, fun hne => ?_⟩
  obtain ⟨a, b, c⟩ := h5 hne
  exact ⟨a.frame hf, b, fun hc => ⟨(c hc).1, (c hc).2.frame hf⟩⟩

theorem Logs.start (P : ClientCall → Prop) (Q : Access → Prop) (g : State) : Logs P Q g g :=
  ⟨⟨[], by simp, by simp⟩, ⟨[], by simp, by simp⟩⟩

theorem Logs.join {P : ClientCall → Prop} {Q : Access → Prop} {g g₁ g₂ : State}
    (h₁ : Logs P Q g g₁) (h₂ : Logs P Q g₁ g₂) : Logs P Q g g₂ := by
  obtain ⟨⟨cs, e1, p1⟩, ⟨xs, e2, q1⟩⟩ := h₁
  obtain ⟨⟨cs', e3, p2⟩, ⟨xs', e4, q2⟩⟩ := h₂
  refine ⟨⟨cs ++ cs', by rw [e3, e1, List.append_assoc], ?_⟩,
    ⟨xs ++ xs', by rw [e4, e2, List.append_assoc], ?_⟩⟩
  · intro c hc
    rcases List.mem_append.1 hc with h | h
    · exact p1 c h
    · exact p2 c h
  · intro x hx
    rcases List.mem_append.1 hx with h | h
    · exact q1 x h
    · exact q2 x h

theorem Logs.weaken {P P' : ClientCall → Prop} {Q Q' : Access → Prop} {g g' : State}
    (h : Logs P Q g g') (hP : ∀ c, P c → P' c) (hQ : ∀ x, Q x → Q' x) : Logs P' Q' g g' := by
  obtain ⟨⟨cs, e1, p1⟩, ⟨xs, e2, q1⟩⟩ := h
  exact ⟨⟨cs, e1, fun c hc => hP c (p1 c hc)⟩, ⟨xs, e2, fun x hx => hQ x (q1 x hx)⟩⟩

theorem Logs.carry {P : ClientCall → Prop} {Q : Access → Prop} {g g₁ g₂ : State}
    (h : Logs P Q g g₁) (hc : g₂.calls = g₁.calls) (ha : g₂.accesses = g₁.accesses) :
    Logs P Q g g₂ := by
  obtain ⟨⟨cs, e1, p1⟩, ⟨xs, e2, q1⟩⟩ := h
  exact ⟨⟨cs, hc.trans e1, p1⟩, ⟨xs, ha.trans e2, q1⟩⟩

theorem Logs.toCalls {P : ClientCall → Prop} {Q : Access → Prop} {g g' : State}
    (h : Logs P Q g g') : CallsExt P g g' :=
  h.1

theorem Py_XDECREF_accesses (o : PyObj) (g : State) :
    (Py_XDECREF o g).accesses = g.accesses := by
  cases o <;> rfl

theorem Py_INCREF_accesses (o : PyObj) (g : State) :
    (Py_INCREF o g).accesses = g.accesses := by
  cases o <;> rfl

theorem Logs.afterDecref {P : ClientCall → Prop} {Q : Access → Prop} {g g₁ : State} {o : PyObj}
    (h : Logs P Q g g₁) : Logs P Q g (Py_XDECREF o g₁) :=
  h.carry (Py_XDECREF_calls o g₁) (Py_XDECREF_accesses o g₁)

theorem Logs.afterIncref {P : ClientCall → Prop} {Q : Access → Prop} {g g₁ : State} {o : PyObj}
    (h : Logs P Q g g₁) : Logs P Q g (Py_INCREF o g₁) :=
  h.carry (Py_INCREF_calls o g₁) (Py_INCREF_accesses o g₁)

theorem Logs.afterNote {P : ClientCall → Prop} {Q : Access → Prop} {g g₁ : State} {x : Access}
    (h : Logs P Q g g₁) (hx : Q x) : Logs P Q g (note x g₁) :=
  h.join ⟨⟨[], by simp [note], by simp⟩, ⟨[x], rfl, by simpa using hx⟩⟩

theorem Logs.filled {P : ClientCall → Prop} {Q : Access → Prop} {g g₁ : State} {id : Nat}
    {f : List Sample → List Sample} {c : ClientCall}
    (h : Logs P Q g g₁) (hc : P c) : Logs P Q g (fillArray id f c g₁) :=
  h.join ⟨⟨[c], rfl, by simpa using hc⟩, ⟨[], by simp [fillArray], by simp⟩⟩

theorem Logs.errSet {P : ClientCall → Prop} {Q : Access → Prop} {g g₁ : State} {msg : String}
    (h : Logs P Q g g₁) : Logs P Q g (PyErr_SetString msg g₁) :=
  h.carry rfl rfl

theorem restoreServer_heap (a : Args) (tmpport : Int) (tmphost : String) (g : State) :
    (restoreServer a tmpport tmphost g).heap = g.heap := by
  unfold restoreServer
  split <;> split <;> rfl

theorem restoreServer_calls (a : Args) (tmpport : Int) (tmphost : String) (g : State) :
    (restoreServer a tmpport tmphost g).calls = g.calls := by
  unfold restoreServer
  split <;> split <;> rfl

theorem restoreServer_accesses (a : Args) (tmpport : Int) (tmphost : String) (g : State) :
    (restoreServer a tmpport tmphost g).accesses = g.accesses := by
  unfold restoreServer
  split <;> split <;> rfl

theorem restoreServer_pyerr (a : Args) (tmpport : Int) (tmphost : String) (g : State) :
    (restoreServer a tmpport tmphost g).pyerr = g.pyerr := by
  unfold restoreServer
  split <;> split <;> rfl

theorem Logs.restored {P : ClientCall → Prop} {Q : Access → Prop} {g g₁ : State} {a : Args}
    {tmpport : Int} {tmphost : String}
    (h : Logs P Q g g₁) : Logs P Q g (restoreServer a tmpport tmphost g₁) :=
  h.carry (restoreServer_calls a tmpport tmphost g₁) (restoreServer_accesses a tmpport tmphost g₁)

/-- A `PyArray_SimpleNew` on `dimsize` enters its read in the access log and
makes no call to the client, whether it succeeds or not. -/
theorem Logs.alloc {P : ClientCall → Prop} {Q : Access → Prop} {g g₀ g₁ : State} {env : Env}
    {nd : Int} {ds : List Int} {first : Nat} {r : Option Nat}
    (hA : PyArray_SimpleNew_dimsize env nd ds first g₀ = (r, g₁))
    (h : Logs P Q g g₀) (hq : Q (.dimsize first nd)) : Logs P Q g g₁ := by
  unfold PyArray_SimpleNew_dimsize PyArray_SimpleNew at hA
  split at hA <;>
  · simp only [Prod.mk.injEq] at hA
    obtain ⟨-, rfl⟩ := hA
    exact (h.afterNote hq).carry rfl rfl

theorem Frame.dimDecref (o : DimObj) (g : State) : Frame g (Py_XDECREF_dim o g) := by
  cases o with
  | null => exact Frame.refl g
  | none => exact Frame.refl g
  | list items =>
    simp only [Py_XDECREF_dim]
    induction items with
    | nil => exact Frame.refl g
    | cons it rest ih =>
      simp only [List.foldr_cons]
      cases it with
      | none => exact ih
      | some d =>
        simp only [Dimension_dealloc]
        exact ((((ih.trans (Frame.decref _ _)).trans (Frame.decref _ _)).trans
          (Frame.decref _ _)).trans (Frame.decref _ _)).trans (Frame.decref _ _)

theorem Py_XDECREF_dim_logs (o : DimObj) (g : State) :
    (Py_XDECREF_dim o g).calls = g.calls ∧ (Py_XDECREF_dim o g).accesses = g.accesses := by
  cases o with
  | null => exact ⟨rfl, rfl⟩
  | none => exact ⟨rfl, rfl⟩
  | list items =>
    simp only [Py_XDECREF_dim]
    induction items with
    | nil => exact ⟨rfl, rfl⟩
    | cons it rest ih =>
      simp only [List.foldr_cons]
      cases it with
      | none => exact ih
      | some d =>
        simp only [Dimension_dealloc, Py_XDECREF_calls, Py_XDECREF_accesses]
        exact ih

theorem Logs.afterDimDecref {P : ClientCall → Prop} {Q : Access → Prop} {g g₁ : State} {o : DimObj}
    (h : Logs P Q g g₁) : Logs P Q g (Py_XDECREF_dim o g₁) :=
  h.carry (Py_XDECREF_dim_logs o g₁).1 (Py_XDECREF_dim_logs o g₁).2

theorem Frame.dealloc (s : idam_Data) (g : State) : Frame g (Data_dealloc s g) := by
  simp only [Data_dealloc]
  exact (((((((((Frame.decref _ _).trans (Frame.decref _ _)).trans (Frame.decref _ _)).trans
    (Frame.decref _ _)).trans (Frame.decref _ _)).trans (Frame.dimDecref _ _)).trans
    (Frame.decref _ _)).trans (Frame.decref _ _)).trans (Frame.decref _ _)).trans
    (Frame.decref _ _)

theorem Logs.afterDealloc {P : ClientCall → Prop} {Q : Access → Prop} {g g₁ : State}
    {s : idam_Data} (h : Logs P Q g g₁) : Logs P Q g (Data_dealloc s g₁) := by
  simp only [Data_dealloc]
  exact h.afterDecref.afterDecref.afterDecref.afterDecref.afterDecref.afterDimDecref.afterDecref.afterDecref.afterDecref.afterDecref

theorem Frame.selfDecref (s : idam_Data) (g : State) : Frame g (Py_XDECREF_self s g).2 := by
  simp only [Py_XDECREF_self]
  split
  · exact Frame.dealloc s g
  · exact Frame.refl g

theorem Logs.bailed {P : ClientCall → Prop} {Q : Access → Prop} {g g₁ : State} {msg : String}
    {s : idam_Data} (h : Logs P Q g g₁) : Logs P Q g (bail msg s g₁).2 := by
  simp only [bail, Py_XDECREF_self]
  split
  · exact h.afterDealloc.errSet
  · exact h.errSet

theorem Frame.noted (x : Access) (g : State) : Frame g (note x g) :=
  ⟨rfl, rfl, rfl, le_rfl, fun _ a ha => ⟨a, ha, rfl, rfl⟩⟩

theorem Frame.thenDecref {g g₁ : State} {o : PyObj} (h : Frame g g₁) :
    Frame g (Py_XDECREF o g₁) :=
  h.trans (Frame.decref o g₁)

theorem Frame.thenIncref {g g₁ : State} {o : PyObj} (h : Frame g g₁) :
    Frame g (Py_INCREF o g₁) :=
  h.trans (Frame.incref o g₁)

theorem Frame.thenNote {g g₁ : State} {x : Access} (h : Frame g g₁) : Frame g (note x g₁) :=
  h.trans (Frame.noted x g₁)

/-- A successful `PyArray_SimpleNew` on `dimsize` followed by the client
filling the new array. -/
theorem allocAt_fill {env : Env} {nd : Int} {ds : List Int} {first : Nat} {g g₁ : State}
    {id : Nat} (f : List Sample → List Sample) (c : ClientCall)
    (h : PyArray_SimpleNew_dimsize env nd ds first g = (some id, g₁)) :
    id = g.heap.length ∧ Frame g (fillArray id f c g₁) ∧
      HasArray (fillArray id f c g₁) (.arr id) ((ds.drop first).take nd.toNat)
        (f (List.replicate (numel ((ds.drop first).take nd.toNat)) 0)) := by
  obtain ⟨h1, h2, -, h4⟩ := alloc_fill f c h
  exact ⟨h1, (Frame.noted _ g).trans h2, h4⟩

theorem Frame.thenFill {env : Env} {nd : Int} {ds : List Int} {first : Nat} {g g₀ g₁ : State}
    {id : Nat} {f : List Sample → List Sample} {c : ClientCall}
    (hA : PyArray_SimpleNew_dimsize env nd ds first g₀ = (some id, g₁))
    (h : Frame g g₀) : Frame g (fillArray id f c g₁) :=
  h.trans (allocAt_fill f c hA).2.1

theorem allocAt_fail {env : Env} {nd : Int} {ds : List Int} {first : Nat} {g g₁ : State}
    (h : PyArray_SimpleNew_dimsize env nd ds first g = (none, g₁)) :
    env.allocOk g.nalloc = false := by
  exact (alloc_fail h).1

/-- Lines 758-767 never return early; they set `time` when `i` is the time
axis and store the dimension in slot `i`. -/
theorem dimFinish_eq (order : Int) (i : Nat) (dim : idam_Dimension) (self : idam_Data)
    (g : State) :
    ∃ g', dimFinish order i dim self g =
        .cont { self with time := if (i : Int) = order then dim.data else self.time,
                          dim := PyList_SET_ITEM self.dim i dim } g' ∧
      Frame g g' ∧ Logs (fun _ => False) (fun _ => False) g g' := by
  unfold dimFinish
  by_cases h : (i : Int) = order
  · simp only [h, if_true]
    exact ⟨_, rfl, (Frame.incref _ _).trans (Frame.decref _ _), (Logs.start _ _ g).afterIncref.afterDecref⟩
  · simp only [h, if_false]
    exact ⟨_, rfl, Frame.refl _, Logs.start _ _ g⟩

theorem dimFinish_cont {order : Int} {i : Nat} {dim : idam_Dimension} {self s' : idam_Data}
    {g g' : State} (h : dimFinish order i dim self g = .cont s' g') :
    s' = { self with time := if (i : Int) = order then dim.data else self.time,
                     dim := PyList_SET_ITEM self.dim i dim } ∧ Frame g g' := by
  obtain ⟨g₂, hfin, fF, -⟩ := dimFinish_eq order i dim self g
  rw [hfin] at h
  simp only [Flow.cont.injEq] at h
  obtain ⟨rfl, rfl⟩ := h
  exact ⟨rfl, fF⟩

theorem dimFinish_ne_fail (order : Int) (i : Nat) (dim : idam_Dimension)
    (self s' : idam_Data) (g g' : State) : dimFinish order i dim self g ≠ .fail s' g' := by
  obtain ⟨g₂, hfin, -, -⟩ := dimFinish_eq order i dim self g
  rw [hfin]
  exact fun hc => by cases hc

theorem Logs.finish {P : ClientCall → Prop} {Q : Access → Prop} {g g₁ : State} {order : Int}
    {i : Nat} {dim : idam_Dimension} {self : idam_Data}
    (h : Logs P Q g g₁) : Logs P Q g (dimFinish order i dim self g₁).state := by
  obtain ⟨g₂, hfin, -, hl⟩ := dimFinish_eq order i dim self g₁
  rw [hfin]
  exact h.join (hl.weaken (fun _ hc => hc.elim) (fun _ hx => hx.elim))

/-- One pass of the dimension loop, whatever its outcome: the calls logged are
buffer requests for native axis `rank-1-i`, the accesses entered are those of
output index `i`. -/
theorem dimBody_logs (env : Env) (handle rank order : Int) (dimsize : List Int) (i : Nat)
    (self : idam_Data) (g : State) :
    Logs (isDimCall handle (rank - 1 - (i : Int))) (isDimAccess handle (rank - 1 - (i : Int)) i)
      g (dimBody env handle rank order dimsize i self g).state := by
  simp only [dimBody]
  repeat' split
  all_goals
    simp only [Flow.state]
    repeat (first
      | exact Logs.start _ _ _
      | apply Logs.bailed
      | apply Logs.finish
      | apply Logs.afterDecref
      | apply Logs.afterIncref
      | (refine Logs.afterNote ?_ (by simp [isDimAccess]))
      | (refine Logs.filled ?_ (by simp [isDimCall]))
      | (refine Logs.alloc (by assumption) ?_ (by simp [isDimAccess])))

/-- A newly allocated array differs from every array already in the heap. -/
theorem allocAt_fresh {env : Env} {nd : Int} {ds : List Int} {first : Nat} {g g₀ g₁ : State}
    {id j : Nat} {s : List Int} {d : List Sample}
    (hA : PyArray_SimpleNew_dimsize env nd ds first g₀ = (some id, g₁))
    (hb : HasArray g (.arr j) s d) (hf : Frame g g₀) : id ≠ j := by
  have h1 := (allocAt_fill (fun x => x) (.idamFree 0) hA).1
  have h2 := hb.lt
  have h3 := hf.len
  omega

/-- One pass of the dimension loop that falls through. -/
theorem dimBody_cont {env : Env} {handle rank order : Int} {dimsize : List Int} {i : Nat}
    {self self' : idam_Data} {g g' : State}
    (h : dimBody env handle rank order dimsize i self g = .cont self' g') :
    ∃ d, self' = { self with time := if (i : Int) = order then d.data else self.time,
                             dim := PyList_SET_ITEM self.dim i d } ∧
      DimOk env handle rank dimsize i d g' ∧ Frame g g' ∧
      CallsExt (isDimCall handle (rank - 1 - (i : Int))) g g' := by
  have hc := (dimBody_logs env handle rank order dimsize i self g).toCalls
  rw [h] at hc
  simp only [dimBody] at h
  split at h
  · cases h
  rename_i _ da g₁ hA
  obtain ⟨-, -, aA⟩ := allocAt_fill (env.client.getIdamFloatDimData handle (rank - 1 - i))
    (.getIdamFloatDimData handle (rank - 1 - i)) hA
  simp only [Int.toNat_one] at aA
  split at h
  · rename_i hT
    split at h
    · cases h
    rename_i _ el g₂ hB
    obtain ⟨hel, -, aB⟩ := allocAt_fill
      (env.client.getIdamFloatDimAsymmetricError handle (rank - 1 - i) 0)
      (.getIdamFloatDimAsymmetricError handle (rank - 1 - i) 0) hB
    simp only [Int.toNat_one] at aB
    split at h
    · rename_i hS
      obtain ⟨rfl, fF⟩ := dimFinish_cont h
      refine ⟨_, rfl, ⟨rfl, rfl, aA.frame (Frame.trans ?_ fF), fun hc => absurd hc hT,
        fun _ => ⟨aB.frame (Frame.trans ?_ fF), fun _ => rfl, fun hc => absurd hS hc⟩⟩,
        Frame.trans ?_ fF, hc⟩
      all_goals
        repeat (first
          | exact Frame.refl _
          | apply Frame.thenDecref
          | apply Frame.thenIncref
          | apply Frame.thenNote
          | (refine Frame.thenFill (by assumption) ?_))
    · rename_i hS
      split at h
      · cases h
      rename_i _ eh g₃ hC
      obtain ⟨heh, -, aC⟩ := allocAt_fill
        (env.client.getIdamFloatDimAsymmetricError handle (rank - 1 - i) 1)
        (.getIdamFloatDimAsymmetricError handle (rank - 1 - i) 1) hC
      simp only [Int.toNat_one] at aC
      have hne : eh ≠ el := allocAt_fresh hC aB (by
        repeat (first
          | exact Frame.refl _
          | apply Frame.thenDecref
          | apply Frame.thenNote))
      obtain ⟨rfl, fF⟩ := dimFinish_cont h
      refine ⟨_, rfl, ⟨rfl, rfl, aA.frame (Frame.trans ?_ fF), fun hc => absurd hc hT,
        fun _ => ⟨aB.frame (Frame.trans ?_ fF), fun hc => absurd hc hS,
          fun _ => ⟨fun hc => hne (by injection hc), aC.frame (Frame.trans ?_ fF)⟩⟩⟩,
        Frame.trans ?_ fF, hc⟩
      all_goals
        repeat (first
          | exact Frame.refl _
          | apply Frame.thenDecref
          | apply Frame.thenIncref
          | apply Frame.thenNote
          | (refine Frame.thenFill (by assumption) ?_))
  · rename_i hT
    obtain ⟨rfl, fF⟩ := dimFinish_cont h
    refine ⟨_, rfl, ⟨rfl, rfl, aA.frame (Frame.trans ?_ fF),
      fun _ => ⟨rfl, rfl⟩, fun hne => absurd (not_not.1 hT) hne⟩, Frame.trans ?_ fF, hc⟩
    all_goals
      repeat (first
        | exact Frame.refl _
        | apply Frame.thenDecref
        | apply Frame.thenIncref
        | apply Frame.thenNote
        | (refine Frame.thenFill (by assumption) ?_))

/-- One pass of the dimension loop that returns early only drops a reference to
the record. -/
theorem dimBody_fail {env : Env} {handle rank order : Int} {dimsize : List Int} {i : Nat}
    {self self' : idam_Data} {g g' : State}
    (h : dimBody env handle rank order dimsize i self g = .fail self' g') :
    self' = { self with ob_refcnt := self.ob_refcnt - 1 } ∧
      ∃ n, env.allocOk n = false := by
  simp only [dimBody] at h
  repeat' split at h
  all_goals
    first
    | exact absurd h (dimFinish_ne_fail _ _ _ _ _ _ _)
    | (simp only [Flow.fail.injEq] at h
       exact ⟨h.1.symm, _, allocAt_fail (by assumption)⟩)

/-- With every allocation succeeding, one pass of the loop falls through. -/
theorem dimBody_ok {env : Env} (hok : ∀ n, env.allocOk n = true) (handle rank order : Int)
    (dimsize : List Int) (i : Nat) (self : idam_Data) (g : State) :
    ∃ self' g', dimBody env handle rank order dimsize i self g = .cont self' g' := by
  rcases hb : dimBody env handle rank order dimsize i self g with ⟨s, g'⟩ | ⟨s, g'⟩
  · exact ⟨s, g', rfl⟩
  · obtain ⟨-, n, hn⟩ := dimBody_fail hb
    rw [hok] at hn
    cases hn

theorem SameCore.same (s : idam_Data) : SameCore s s :=
  ⟨rfl, rfl, rfl, rfl, rfl, rfl, rfl, rfl, rfl⟩

theorem SameCore.chain {a b c : idam_Data} (h₁ : SameCore a b) (h₂ : SameCore b c) :
    SameCore a c := by
  obtain ⟨a1, a2, a3, a4, a5, a6, a7, a8, a9⟩ := h₁
  obtain ⟨b1, b2, b3, b4, b5, b6, b7, b8, b9⟩ := h₂
  exact ⟨b1.trans a1, b2.trans a2, b3.trans a3, b4.trans a4, b5.trans a5, b6.trans a6,
    b7.trans a7, b8.trans a8, b9.trans a9⟩

/-- The dimension loop, when it runs to its end: slots `i .. i+n-1` of the list
are filled from native axes `rank-1-i ..`, other slots are untouched, `time`
aliases the data of slot `order` when that slot is among them. -/
theorem dimLoop_cont {env : Env} {handle rank order : Int} {dimsize : List Int} :
    ∀ (n i : Nat) (self self' : idam_Data) (g g' : State)
      (items : List (Option idam_Dimension)),
      dimLoop env handle rank order dimsize n i self g = .cont self' g' →
      self.dim = .list items →
      ∃ items', self'.dim = .list items' ∧ items'.length = items.length ∧
        (∀ j, j < i ∨ i + n ≤ j → items'[j]? = items[j]?) ∧
        (∀ j, i ≤ j → j < i + n → j < items.length →
          ∃ d, items'[j]? = some (some d) ∧ DimOk env handle rank dimsize j d g' ∧
            ((j : Int) = order → self'.time = d.data)) ∧
        ((∀ j, i ≤ j → j < i + n → (j : Int) ≠ order) → self'.time = self.time) ∧
        SameCore self self' ∧ self'.ob_refcnt = self.ob_refcnt ∧ Frame g g' ∧
        CallsExt (fun c => ∃ j : Nat, i ≤ j ∧ j < i + n ∧
          isDimCall handle (rank - 1 - (j : Int)) c) g g' := by
  intro n
  induction n with
  | zero =>
    intro i self self' g g' items h hdim
    simp only [dimLoop, Flow.cont.injEq] at h
    obtain ⟨rfl, rfl⟩ := h
    refine ⟨items, hdim, rfl, fun _ _ => rfl, ?_, fun _ => rfl, SameCore.same _, rfl,
      Frame.refl _, CallsExt.nil _ _⟩
    intro j h1 h2
    omega
  | succ n ih =>
    intro i self self' g g' items h hdim
    rw [dimLoop] at h
    rcases hb : dimBody env handle rank order dimsize i self g with ⟨s₁, g₁⟩ | ⟨s₁, g₁⟩
    · rw [hb] at h
      simp only at h
      obtain ⟨d, hs₁, hd, hf, hc⟩ := dimBody_cont hb
      have hdim₁ : s₁.dim = .list (items.set i (some d)) := by
        rw [hs₁]; simp only [hdim, PyList_SET_ITEM]
      obtain ⟨items', e1, e2, e3, e4, e5, e6, e7, e8, e9⟩ := ih (i + 1) s₁ self' g₁ g' _ h hdim₁
      have htime₁ : s₁.time = if (i : Int) = order then d.data else self.time := by
        rw [hs₁]
      refine ⟨items', e1, by rw [e2, List.length_set], ?_, ?_, ?_, ?_, ?_, hf.trans e8, ?_⟩
      · intro j hj
        rw [e3 j (by omega), List.getElem?_set_ne (by omega)]
      · intro j h1 h2 h3
        by_cases hji : j = i
        · subst hji
          refine ⟨d, ?_, hd.stable e8, ?_⟩
          · rw [e3 j (by omega)]
            simp [List.getElem?_set, h3]
          · intro hjo
            rw [e5 (fun j' a b => by omega), htime₁, if_pos hjo]
        · exact e4 j (by omega) (by omega) (by rw [List.length_set]; exact h3)
      · intro hno
        rw [e5 (fun j a b => hno j (by omega) (by omega)), htime₁,
          if_neg (hno i le_rfl (by omega))]
      · refine SameCore.chain ?_ e6
        rw [hs₁]
        exact SameCore.same _
      · rw [e7, hs₁]
      · refine CallsExt.append (hc.mono ?_) (e9.mono ?_)
        · intro c hc
          exact ⟨i, le_rfl, by omega, hc⟩
        · rintro c ⟨j, a, b, hc⟩
          exact ⟨j, by omega, by omega, hc⟩
    · rw [hb] at h
      cases h

/-- An early return from the dimension loop leaves the fields the loop never
assigns as they were and has dropped one reference to the record. -/
theorem dimLoop_fail {env : Env} {handle rank order : Int} {dimsize : List Int} :
    ∀ (n i : Nat) (self self' : idam_Data) (g g' : State),
      dimLoop env handle rank order dimsize n i self g = .fail self' g' →
      SameCore self self' ∧ self'.ob_refcnt = self.ob_refcnt - 1 := by
  intro n
  induction n with
  | zero =>
    intro i self self' g g' h
    simp [dimLoop] at h
  | succ n ih =>
    intro i self self' g g' h
    rw [dimLoop] at h
    rcases hb : dimBody env handle rank order dimsize i self g with ⟨s₁, g₁⟩ | ⟨s₁, g₁⟩
    · rw [hb] at h
      simp only at h
      obtain ⟨d, hs₁, -, -, -⟩ := dimBody_cont hb
      obtain ⟨hc, hr⟩ := ih _ _ _ _ _ h
      refine ⟨SameCore.chain ?_ hc, ?_⟩
      · rw [hs₁]
        exact SameCore.same _
      · rw [hr, hs₁]
    · rw [hb] at h
      simp only [Flow.fail.injEq] at h
      obtain ⟨rfl, rfl⟩ := h
      rw [(dimBody_fail hb).1]
      exact ⟨SameCore.same _, rfl⟩

/-- The dimension loop, whatever its outcome: the calls logged are buffer
requests for the native axes of the output indices it visits, the accesses
entered are those of these output indices. -/
theorem dimLoop_logs (env : Env) (handle rank order : Int) (dimsize : List Int) :
    ∀ (n i : Nat) (self : idam_Data) (g : State),
      Logs (fun c => ∃ j : Nat, i ≤ j ∧ j < i + n ∧ isDimCall handle (rank - 1 - (j : Int)) c)
        (fun x => ∃ j : Nat, i ≤ j ∧ j < i + n ∧ isDimAccess handle (rank - 1 - (j : Int)) j x)
        g (dimLoop env handle rank order dimsize n i self g).state := by
  intro n
  induction n with
  | zero =>
    intro i self g
    exact Logs.start _ _ _
  | succ n ih =>
    intro i self g
    have hb := dimBody_logs env handle rank order dimsize i self g
    rw [dimLoop]
    rcases hd : dimBody env handle rank order dimsize i self g with ⟨s₁, g₁⟩ | ⟨s₁, g₁⟩
    · rw [hd] at hb
      refine Logs.join (hb.weaken ?_ ?_) ((ih (i + 1) s₁ g₁).weaken ?_ ?_)
      · exact fun c hc => ⟨i, le_rfl, by omega, hc⟩
      · exact fun x hx => ⟨i, le_rfl, by omega, hx⟩
      · rintro c ⟨j, h1, h2, hc⟩
        exact ⟨j, by omega, by omega, hc⟩
      · rintro x ⟨j, h1, h2, hx⟩
        exact ⟨j, by omega, by omega, hx⟩
    · rw [hd] at hb
      refine hb.weaken ?_ ?_
      · exact fun c hc => ⟨i, le_rfl, by omega, hc⟩
      · exact fun x hx => ⟨i, le_rfl, by omega, hx⟩

/-- With every allocation succeeding the dimension loop runs to its end. -/
theorem dimLoop_ok {env : Env} (hok : ∀ n, env.allocOk n = true) (handle rank order : Int)
    (dimsize : List Int) :
    ∀ (n i : Nat) (self : idam_Data) (g : State),
      ∃ self' g', dimLoop env handle rank order dimsize n i self g = .cont self' g' := by
  intro n
  induction n with
  | zero => exact fun i self g => ⟨self, g, rfl⟩
  | succ n ih =>
    intro i self g
    obtain ⟨s₁, g₁, hb⟩ := dimBody_ok hok handle rank order dimsize i self g
    obtain ⟨s₂, g₂, hl⟩ := ih (i + 1) s₁ g₁
    exact ⟨s₂, g₂, by rw [dimLoop, hb]; exact hl⟩

/-- Entries written by the `dimsize` loop: after the iterations `i .. i+n-1`
position `p` holds the size of native axis `rank-1-p` when
`rank-i-n ≤ p ≤ rank-1-i`, and its old value otherwise. -/
theorem fillDimsize_spec (cl : Client) (handle rank : Int) :
    ∀ (n i : Nat) (ds₀ ds : List Int),
      fillDimsize cl handle rank n i ds₀ = some ds →
      ds.length = ds₀.length ∧ (0 < n → rank - 1 - (i : Int) < 8) ∧
      ∀ p : Nat, p < ds₀.length →
        ds[p]? = if rank - (i : Int) - (n : Int) ≤ (p : Int) ∧ (p : Int) ≤ rank - 1 - (i : Int)
          then some (cl.getIdamDimNum handle (rank - 1 - (p : Int))) else ds₀[p]? := by
  intro n
  induction n with
  | zero =>
    intro i ds₀ ds h
    simp only [fillDimsize, Option.some.injEq] at h
    subst h
    refine ⟨rfl, fun hc => absurd hc (lt_irrefl 0), fun p _ => ?_⟩
    rw [if_neg]
    push_cast
    omega
  | succ n ih =>
    intro i ds₀ ds h
    rw [fillDimsize] at h
    split at h
    · rename_i hb
      obtain ⟨e1, -, e3⟩ := ih (i + 1) _ ds h
      rw [List.length_set] at e1
      refine ⟨e1, fun _ => hb.2, fun p hp => ?_⟩
      rw [e3 p (by rw [List.length_set]; exact hp)]
      by_cases hpi : (p : Int) = rank - 1 - (i : Int)
      · have hp' : (rank - 1 - (i : Int)).toNat = p := by omega
        rw [if_neg (by push_cast; omega), if_pos (by push_cast; omega), hp']
        simp only [List.getElem?_set, hp, if_true]
        congr 2
        omega
      · have hp' : (rank - 1 - (i : Int)).toNat ≠ p := by omega
        rw [List.getElem?_set_ne hp']
        by_cases hr : rank - ((i + 1 : Nat) : Int) - (n : Int) ≤ (p : Int) ∧
            (p : Int) ≤ rank - 1 - ((i + 1 : Nat) : Int)
        · rw [if_pos hr, if_pos (by push_cast at hr ⊢; omega)]
        · rw [if_neg hr, if_neg (by push_cast at hr ⊢; omega)]
    · cases h

/-- The whole `dimsize` loop: it stays inside the buffer exactly when
`rank ≤ 8`, and then `dimsize[j]` is the size of native axis `rank-1-j`. -/
theorem fillDimsize_full {cl : Client} {handle rank : Int} {ds : List Int}
    (h : fillDimsize cl handle rank rank.toNat 0 (List.replicate 8 0) = some ds) :
    ds.length = 8 ∧ rank ≤ 8 ∧
      ∀ j : Nat, (j : Int) < rank → ds[j]? = some (cl.getIdamDimNum handle (rank - 1 - (j : Int))) := by
  obtain ⟨e1, e2, e3⟩ := fillDimsize_spec cl handle rank _ _ _ _ h
  simp only [List.length_replicate] at e1 e3
  have hr : rank ≤ 8 := by
    by_cases h0 : 0 < rank.toNat
    · have := e2 h0
      push_cast at this
      omega
    · omega
  refine ⟨e1, hr, fun j hj => ?_⟩
  rw [e3 j (by omega), if_pos]
  constructor
  · have : ((rank.toNat : Nat) : Int) = rank := Int.toNat_of_nonneg (by omega)
    push_cast
    omega
  · push_cast
    omega

theorem fillDimsize_ok_aux (cl : Client) (handle rank : Int) (hr : rank ≤ 8) :
    ∀ (n i : Nat) (ds₀ : List Int), (i : Int) + (n : Int) ≤ rank →
      ∃ ds, fillDimsize cl handle rank n i ds₀ = some ds := by
  intro n
  induction n with
  | zero => exact fun i ds₀ _ => ⟨ds₀, rfl⟩
  | succ n ih =>
    intro i ds₀ hin
    have h1 : 0 ≤ rank - 1 - (i : Int) ∧ rank - 1 - (i : Int) < 8 := by
      push_cast at hin
      omega
    rw [fillDimsize, if_pos h1]
    exact ih _ _ (by push_cast at hin ⊢; omega)

/-- For `rank ≤ 8` the `dimsize` loop stays inside the buffer. -/
theorem fillDimsize_ok (cl : Client) (handle rank : Int) (hr : rank ≤ 8) :
    ∃ ds, fillDimsize cl handle rank rank.toNat 0 (List.replicate 8 0) = some ds := by
  by_cases h0 : 0 ≤ rank
  · exact fillDimsize_ok_aux cl handle rank hr _ _ _ (by
      rw [Int.toNat_of_nonneg h0]; simp)
  · have : rank.toNat = 0 := by omega
    rw [this]
    exact ⟨_, rfl⟩

/-- Lines 624-676, whatever their outcome: the calls logged ask for error
buffers of the primary data, the accesses entered are reads of the first `rank`
entries of `dimsize`. -/
theorem readErrors_logs (env : Env) (a : Args) (tmpport : Int) (tmphost : String)
    (handle rank : Int) (dimsize : List Int) (self : idam_Data) (g : State) :
    Logs (isErrCall handle) (fun x => x = .dimsize 0 rank) g
      (readErrors env a tmpport tmphost handle rank dimsize self g).state := by
  simp only [readErrors]
  repeat' split
  all_goals
    simp only [Flow.state]
    repeat (first
      | exact Logs.start _ _ _
      | apply Logs.bailed
      | apply Logs.restored
      | apply Logs.afterDecref
      | apply Logs.afterIncref
      | (refine Logs.filled ?_ (by simp [isErrCall]))
      | (refine Logs.alloc (by assumption) ?_ (by simp)))

/-- Lines 624-676 when they fall through: only `errl` and `errh` change, and
they are as the client's error type and asymmetry flags dictate. -/
theorem readErrors_cont {env : Env} {a : Args} {tmpport : Int} {tmphost : String}
    {handle rank : Int} {dimsize : List Int} {self self' : idam_Data} {g g' : State}
    (h : readErrors env a tmpport tmphost handle rank dimsize self g = .cont self' g') :
    self' = { self with errl := self'.errl, errh := self'.errh } ∧ Frame g g' ∧
      CallsExt (isErrCall handle) g g' ∧
      (env.client.getIdamErrorType handle = env.TYPE_UNKNOWN →
        self'.errl = .none ∧ self'.errh = .none ∧ g'.calls = g.calls) ∧
      (env.client.getIdamErrorType handle ≠ env.TYPE_UNKNOWN →
        HasArray g' self'.errl (dimsize.take rank.toNat)
          (env.client.getIdamFloatAsymmetricError handle 0
            (List.replicate (numel (dimsize.take rank.toNat)) 0)) ∧
        (env.client.getIdamErrorAsymmetry handle = 0 → self'.errh = self'.errl) ∧
        (env.client.getIdamErrorAsymmetry handle ≠ 0 → self'.errh ≠ self'.errl ∧
          HasArray g' self'.errh (dimsize.take rank.toNat)
            (env.client.getIdamFloatAsymmetricError handle 1
              (List.replicate (numel (dimsize.take rank.toNat)) 0)))) := by
  have hc := (readErrors_logs env a tmpport tmphost handle rank dimsize self g).toCalls
  rw [h] at hc
  simp only [readErrors] at h
  split at h
  · rename_i hT
    split at h
    · cases h
    rename_i _ el g₁ hA
    obtain ⟨hel, -, aA⟩ := allocAt_fill (env.client.getIdamFloatAsymmetricError handle 0)
      (.getIdamFloatAsymmetricError handle 0) hA
    split at h
    · rename_i hS
      simp only [Flow.cont.injEq] at h
      obtain ⟨rfl, rfl⟩ := h
      refine ⟨rfl, ?_, hc, fun hc => absurd hc hT,
        fun _ => ⟨aA.frame ?_, fun _ => rfl, fun hc => absurd hS hc⟩⟩
      all_goals
        repeat (first
          | exact Frame.refl _
          | apply Frame.thenDecref
          | apply Frame.thenIncref
          | (refine Frame.thenFill (by assumption) ?_))
    · rename_i hS
      split at h
      · cases h
      rename_i _ eh g₂ hB
      obtain ⟨heh, -, aB⟩ := allocAt_fill (env.client.getIdamFloatAsymmetricError handle 1)
        (.getIdamFloatAsymmetricError handle 1) hB
      have hne : eh ≠ el := allocAt_fresh hB aA (Frame.decref _ _)
      simp only [Flow.cont.injEq] at h
      obtain ⟨rfl, rfl⟩ := h
      refine ⟨rfl, ?_, hc, fun hc => absurd hc hT,
        fun _ => ⟨aA.frame ?_, fun hc => absurd hc hS,
          fun _ => ⟨fun hc => hne (by injection hc), aB.frame ?_⟩⟩⟩
      all_goals
        repeat (first
          | exact Frame.refl _
          | apply Frame.thenDecref
          | apply Frame.thenIncref
          | (refine Frame.thenFill (by assumption) ?_))
  · rename_i hT
    simp only [Flow.cont.injEq] at h
    obtain ⟨rfl, rfl⟩ := h
    exact ⟨rfl, (Frame.decref _ _).trans (Frame.decref _ _), hc,
      fun _ => ⟨rfl, rfl, by rw [Py_XDECREF_calls, Py_XDECREF_calls]⟩,
      fun hc => absurd (not_not.1 hT) hc⟩

theorem SameCore.toMeta {s s' : idam_Data} (h : SameCore s s') : SameMeta s s' :=
  ⟨h.1, h.2.1, h.2.2.1, h.2.2.2.1, h.2.2.2.2.1, h.2.2.2.2.2.1⟩

/-- Lines 624-676 when they return early: an error array could not be
allocated; the server host and port have been put back and one reference to the
record has been dropped. -/
theorem readErrors_fail {env : Env} {a : Args} {tmpport : Int} {tmphost : String}
    {handle rank : Int} {dimsize : List Int} {self self' : idam_Data} {g g' : State}
    (h : readErrors env a tmpport tmphost handle rank dimsize self g = .fail self' g') :
    SameMeta self self' ∧ self'.data = self.data ∧ self'.time = self.time ∧
      self'.dim = self.dim ∧
      g'.pyerr = some "Could not create NumPy array for error array" ∧
      (∃ n, env.allocOk n = false) ∧ self'.ob_refcnt = self.ob_refcnt - 1 := by
  simp only [readErrors] at h
  repeat' split at h
  all_goals
    first
    | exact Flow.noConfusion h
    | (simp only [Flow.fail.injEq] at h
       obtain ⟨rfl, rfl⟩ := h
       exact ⟨⟨rfl, rfl, rfl, rfl, rfl, rfl⟩, rfl, rfl, rfl, rfl,
         ⟨_, allocAt_fail (by assumption)⟩, rfl⟩)

theorem HasArray.of_heap {g g' : State} {o : PyObj} {s : List Int} {d : List Sample}
    (h : HasArray g o s d) (hh : g'.heap = g.heap) : HasArray g' o s d := by
  obtain ⟨id, a, ho, ha, hs, hd⟩ := h
  exact ⟨id, a, ho, by rw [hh]; exact ha, hs, hd⟩

theorem DimOk.heap_congr {env : Env} {handle rank : Int} {dimsize : List Int} {i : Nat}
    {d : idam_Dimension} {g g' : State} (h : DimOk env handle rank dimsize i d g)
    (hh : g'.heap = g.heap) : DimOk env handle rank dimsize i d g' := by
  obtain ⟨h1, h2, h3, h4, h5⟩ := h
  refine ⟨h1, h2, h3.of_heap hh, h4, fun hne => ?_⟩
  obtain ⟨a, b, c⟩ := h5 hne
  exact ⟨a.of_heap hh, b, fun hc => ⟨(c hc).1, (c hc).2.of_heap hh⟩⟩

theorem restoreServer_host (a : Args) (tmpport : Int) (tmphost : String) (g : State) :
    (restoreServer a tmpport tmphost g).server_host =
      if a.host.isSome then tmphost else g.server_host := by
  unfold restoreServer
  split <;> split <;> rfl

theorem restoreServer_port (a : Args) (tmpport : Int) (tmphost : String) (g : State) :
    (restoreServer a tmpport tmphost g).server_port =
      if a.port > 0 then tmpport else g.server_port := by
  unfold restoreServer
  split <;> split <;> rfl

theorem PyList_New_spec (env : Env) (n : Int) (g : State) :
    (env.allocOk g.nalloc = true ∧
      PyList_New env n g = (.list (List.replicate n.toNat none), { g with nalloc := g.nalloc + 1 })) ∨
    (env.allocOk g.nalloc = false ∧
      PyList_New env n g = (.null, { g with nalloc := g.nalloc + 1 })) := by
  unfold PyList_New
  by_cases h : env.allocOk g.nalloc = true
  · exact Or.inl ⟨h, by rw [if_pos h]⟩
  · exact Or.inr ⟨by simpa using h, by rw [if_neg h]⟩

theorem allocAt_fill_calls {env : Env} {nd : Int} {ds : List Int} {first : Nat} {g g₁ : State}
    {id : Nat} (f : List Sample → List Sample) (c : ClientCall)
    (h : PyArray_SimpleNew_dimsize env nd ds first g = (some id, g₁)) :
    (fillArray id f c g₁).calls = g.calls ++ [c] :=
  (alloc_fill f c h).2.2.1

/-- Lines 597-783 when they reach `return 0`. -/
theorem initTail_ok {env : Env} {a : Args} {tmpport : Int} {tmphost : String}
    {handle rank order : Int} {dimsize : List Int} {self self' : idam_Data} {g g' : State}
    (h : initTail env a tmpport tmphost handle rank order dimsize self g = (0, self', g')) :
    Built env a tmpport tmphost handle rank order dimsize self self' g g' := by
  simp only [initTail] at h
  split at h
  · simp at h
  rename_i _ pa g₁ hA
  obtain ⟨hpa, fA, aA⟩ := allocAt_fill (env.client.getIdamFloatData handle)
    (.getIdamFloatData handle) hA
  have cA := allocAt_fill_calls (env.client.getIdamFloatData handle)
    (.getIdamFloatData handle) hA
  split at h
  · simp at h
  rename_i s₂ g₂ hE
  obtain ⟨hs₂, fE, cE, eN, eE⟩ := readErrors_cont hE
  rcases PyList_New_spec env rank (Py_XDECREF s₂.time g₂) with ⟨-, hL⟩ | ⟨-, hL⟩
  swap
  · simp [hL] at h
  simp only [hL] at h
  split at h
  · simp at h
  rename_i s₃ g₃ hD
  simp only [Prod.mk.injEq, true_and] at h
  obtain ⟨rfl, rfl⟩ := h
  obtain ⟨items, d1, d2, d3, d4, d5, d6, d7, d8, d9⟩ := dimLoop_cont _ _ _ _ _ _ _ hD rfl
  obtain ⟨c1, c2, c3, c4, c5, c6, c7, c8, c9⟩ := d6
  have fT : Frame g₂ { Py_XDECREF s₂.time g₂ with nalloc := (Py_XDECREF s₂.time g₂).nalloc + 1 } := by
    have := Frame.decref s₂.time g₂
    exact ⟨this.host, this.port, this.err, this.len, this.keep⟩
  have f23 : Frame g₂ (Py_XDECREF_dim s₂.dim g₃) := (fT.trans d8).trans (Frame.dimDecref _ _)
  have f03 : Frame g (Py_XDECREF_dim s₂.dim g₃) :=
    ((fA.trans (Frame.decref _ _)).trans fE).trans f23
  have hheap : (restoreServer a tmpport tmphost
      { Py_XDECREF_dim s₂.dim g₃ with
        calls := (Py_XDECREF_dim s₂.dim g₃).calls ++ [.idamFree handle] }).heap =
      (Py_XDECREF_dim s₂.dim g₃).heap := by
    rw [restoreServer_heap]
  simp only [List.length_replicate] at d2
  refine
    { nameEq := ?_, sourceEq := ?_, labelEq := ?_, unitsEq := ?_, descEq := ?_,
      orderEq := rfl, refEq := ?_, dataArr := ?_, noErr := ?_, errArr := ?_, dims := ?_,
      calls := ?_, hostEq := ?_, portEq := ?_, pyerrEq := ?_ }
  · show s₃.name = _; rw [c1, hs₂]
  · show s₃.source = _; rw [c2, hs₂]
  · show s₃.label = _; rw [c3, hs₂]
  · show s₃.units = _; rw [c4, hs₂]
  · show s₃.desc = _; rw [c5, hs₂]
  · show s₃.ob_refcnt = _; rw [d7, hs₂]
  · show HasArray _ s₃.data _ _
    rw [c9]
    have : s₂.data = .arr pa := by rw [hs₂]
    rw [this]
    exact (((aA.frame (Frame.decref _ _)).frame fE).frame f23).of_heap hheap
  · intro hT
    show s₃.errl = _ ∧ s₃.errh = _
    rw [c7, c8]
    exact ⟨(eN hT).1, (eN hT).2.1⟩
  · intro hT
    obtain ⟨x, y, z⟩ := eE hT
    show HasArray _ s₃.errl _ _ ∧ (_ → s₃.errh = s₃.errl) ∧ (_ → s₃.errh ≠ s₃.errl ∧
      HasArray _ s₃.errh _ _)
    rw [c7, c8]
    exact ⟨(x.frame f23).of_heap hheap, y,
      fun hS => ⟨(z hS).1, ((z hS).2.frame f23).of_heap hheap⟩⟩
  · refine ⟨items, d1, d2, ?_, ?_⟩
    · intro j hj
      obtain ⟨d, e1, e2, e3⟩ := d4 j (Nat.zero_le _) (by omega) (by
        simp only [List.length_replicate]; exact hj)
      exact ⟨d, e1, (e2.stable (Frame.dimDecref _ _)).heap_congr hheap, e3⟩
    · intro hno
      exact d5 (fun j _ hj => hno j (by omega))
  · obtain ⟨csE, hcE, pE⟩ := cE
    obtain ⟨csD, hcD, pD⟩ := d9
    refine ⟨.getIdamFloatData handle :: (csE ++ csD), ?_, ?_⟩
    · rw [restoreServer_calls]
      show (Py_XDECREF_dim s₂.dim g₃).calls ++ _ = _
      rw [(Py_XDECREF_dim_logs _ _).1, hcD]
      show (Py_XDECREF s₂.time g₂).calls ++ _ ++ _ = _
      rw [Py_XDECREF_calls, hcE, Py_XDECREF_calls, cA]
      simp
    · intro c hc
      simp only [List.mem_cons, List.mem_append] at hc
      rcases hc with rfl | hc | hc
      · exact Or.inl rfl
      · refine Or.inr (Or.inl ⟨pE c hc, ?_⟩)
        intro hT
        have := (eN hT).2.2
        rw [hcE] at this
        have hnil : csE = [] := by simpa using this
        rw [hnil] at hc
        cases hc
      · obtain ⟨j, -, hj, hcj⟩ := pD c hc
        exact Or.inr (Or.inr ⟨j, by omega, hcj⟩)
  · rw [restoreServer_host]
    show (if _ then _ else (Py_XDECREF_dim s₂.dim g₃).server_host) = _
    rw [f03.host]
  · rw [restoreServer_port]
    show (if _ then _ else (Py_XDECREF_dim s₂.dim g₃).server_port) = _
    rw [f03.port]
  · rw [restoreServer_pyerr]
    exact f03.err

/-- With every allocation succeeding lines 624-676 fall through. -/
theorem readErrors_ok {env : Env} (hok : ∀ n, env.allocOk n = true) (a : Args)
    (tmpport : Int) (tmphost : String) (handle rank : Int) (dimsize : List Int)
    (self : idam_Data) (g : State) :
    ∃ self' g', readErrors env a tmpport tmphost handle rank dimsize self g = .cont self' g' := by
  rcases hb : readErrors env a tmpport tmphost handle rank dimsize self g with
    ⟨s, g'⟩ | ⟨s, g'⟩
  · exact ⟨s, g', rfl⟩
  · obtain ⟨n, hn⟩ := (readErrors_fail hb).2.2.2.2.2.1
    rw [hok n] at hn
    cases hn

/-- Lines 597-783 return 0 or -1; a return of -1 means that an allocation
failed; the fields assigned before line 597 and `order` are untouched, and one
reference to the record has been dropped. -/
theorem initTail_fail {env : Env} {a : Args} {tmpport : Int} {tmphost : String}
    {handle rank order : Int} {dimsize : List Int} {self self' : idam_Data} {g g' : State}
    {r : Int} (h : initTail env a tmpport tmphost handle rank order dimsize self g = (r, self', g'))
    (hr : r ≠ 0) :
    r = -1 ∧ SameMeta self self' ∧ (∃ n, env.allocOk n = false) ∧
      self'.ob_refcnt = self.ob_refcnt - 1 := by
  simp only [initTail] at h
  split at h
  · rename_i _ g₁ hA
    simp only [Prod.mk.injEq] at h
    obtain ⟨rfl, rfl, rfl⟩ := h
    exact ⟨rfl, ⟨rfl, rfl, rfl, rfl, rfl, rfl⟩, ⟨_, allocAt_fail hA⟩, rfl⟩
  rename_i _ pa g₁ hA
  split at h
  · rename_i s₂ g₂ hE
    simp only [Prod.mk.injEq] at h
    obtain ⟨rfl, rfl, rfl⟩ := h
    obtain ⟨m, -, -, -, -, hn, hc⟩ := readErrors_fail hE
    exact ⟨rfl, m, hn, hc⟩
  rename_i s₂ g₂ hE
  obtain ⟨hs₂, -, -, -, -⟩ := readErrors_cont hE
  have m₂ : SameMeta self s₂ := by
    rw [hs₂]; exact ⟨rfl, rfl, rfl, rfl, rfl, rfl⟩
  have r₂ : s₂.ob_refcnt = self.ob_refcnt := by
    rw [hs₂]
  rcases PyList_New_spec env rank (Py_XDECREF s₂.time g₂) with ⟨-, hL⟩ | ⟨hn, hL⟩
  swap
  · simp only [hL, Prod.mk.injEq] at h
    obtain ⟨rfl, rfl, rfl⟩ := h
    exact ⟨rfl, m₂, ⟨_, hn⟩, congrArg (· - 1) r₂⟩
  simp only [hL] at h
  split at h
  · rename_i s₃ g₃ hD
    simp only [Prod.mk.injEq] at h
    obtain ⟨rfl, rfl, rfl⟩ := h
    obtain ⟨c₃, r₃⟩ := dimLoop_fail _ _ _ _ _ _ hD
    have m₃ := c₃.toMeta
    refine ⟨rfl, ?_, ?_, ?_⟩
    · obtain ⟨a1, a2, a3, a4, a5, a6⟩ := m₂
      obtain ⟨b1, b2, b3, b4, b5, b6⟩ := m₃
      exact ⟨b1.trans a1, b2.trans a2, b3.trans a3, b4.trans a4, b5.trans a5, b6.trans a6⟩
    · by_contra hall
      have hok : ∀ n, env.allocOk n = true := by
        intro n
        by_contra hc
        exact hall ⟨n, by simpa using hc⟩
      obtain ⟨s, g'', hl⟩ := dimLoop_ok hok handle rank order dimsize rank.toNat 0
        { s₂ with time := .none, dim := .list (List.replicate rank.toNat none) }
        { Py_XDECREF s₂.time g₂ with nalloc := (Py_XDECREF s₂.time g₂).nalloc + 1 }
      rw [hl] at hD
      cases hD
    · rw [r₃]
      exact congrArg (· - 1) r₂
  · simp only [Prod.mk.injEq] at h
    exact absurd h.1.symm hr

theorem Logs.called {P : ClientCall → Prop} {Q : Access → Prop} {g g₁ : State} {c : ClientCall}
    (h : Logs P Q g g₁) (hc : P c) : Logs P Q g { g₁ with calls := g₁.calls ++ [c] } :=
  h.join ⟨⟨[c], rfl, by simpa using hc⟩, ⟨[], by simp, by simp⟩⟩

theorem Logs.counted {P : ClientCall → Prop} {Q : Access → Prop} {g g₁ : State} {n : Nat}
    (h : Logs P Q g g₁) : Logs P Q g { g₁ with nalloc := n } :=
  h.carry rfl rfl

/-- Lines 597-783, whatever their outcome: the accesses entered are reads of the
first `rank` entries of `dimsize` and the accesses of the dimension loop for the
output indices below `rank`. -/
theorem initTail_logs (env : Env) (a : Args) (tmpport : Int) (tmphost : String)
    (handle rank order : Int) (dimsize : List Int) (self : idam_Data) (g : State) :
    Logs (fun _ => True)
      (fun x => x = .dimsize 0 rank ∨
        ∃ j : Nat, j < rank.toNat ∧ isDimAccess handle (rank - 1 - (j : Int)) j x)
      g (initTail env a tmpport tmphost handle rank order dimsize self g).2.2 := by
  simp only [initTail]
  split
  · rename_i _ g₁ hA
    exact ((Logs.alloc hA (Logs.start _ _ _) (Or.inl (by simp))).restored).bailed
  rename_i _ pa g₁ hA
  have h1 : Logs (fun _ => True)
      (fun x => x = .dimsize 0 rank ∨
        ∃ j : Nat, j < rank.toNat ∧ isDimAccess handle (rank - 1 - (j : Int)) j x)
      g (Py_XDECREF self.data (fillArray pa (env.client.getIdamFloatData handle)
        (.getIdamFloatData handle) g₁)) :=
    ((Logs.alloc hA (Logs.start _ _ _) (Or.inl (by simp))).filled trivial).afterDecref
  have hE := readErrors_logs env a tmpport tmphost handle rank dimsize
    { self with data := .arr pa }
    (Py_XDECREF self.data (fillArray pa (env.client.getIdamFloatData handle)
        (.getIdamFloatData handle) g₁))
  split
  · rename_i s₂ g₂ hEq
    rw [hEq] at hE
    exact h1.join (hE.weaken (fun _ _ => trivial) (fun x hx => Or.inl hx))
  rename_i s₂ g₂ hEq
  rw [hEq] at hE
  have h2 := h1.join (hE.weaken (fun _ _ => trivial) (fun x hx => Or.inl hx))
  rcases PyList_New_spec env rank (Py_XDECREF s₂.time g₂) with ⟨-, hL⟩ | ⟨hn, hL⟩
  · simp only [hL]
    have hD := dimLoop_logs env handle rank order dimsize rank.toNat 0
      { s₂ with time := .none, dim := .list (List.replicate rank.toNat none) }
      { Py_XDECREF s₂.time g₂ with nalloc := (Py_XDECREF s₂.time g₂).nalloc + 1 }
    have h3 : Logs (fun _ => True)
        (fun x => x = .dimsize 0 rank ∨
          ∃ j : Nat, j < rank.toNat ∧ isDimAccess handle (rank - 1 - (j : Int)) j x)
        g (dimLoop env handle rank order dimsize rank.toNat 0
          { s₂ with time := .none, dim := .list (List.replicate rank.toNat none) }
          { Py_XDECREF s₂.time g₂ with nalloc := (Py_XDECREF s₂.time g₂).nalloc + 1 }).state := by
      refine (Logs.counted h2.afterDecref).join (hD.weaken (fun _ _ => trivial) ?_)
      rintro x ⟨j, -, hj, hx⟩
      exact Or.inr ⟨j, by omega, hx⟩
    split
    · rename_i s₃ g₃ hDq
      rw [hDq] at h3
      exact h3
    · rename_i s₃ g₃ hDq
      rw [hDq] at h3
      simp only [Flow.state] at h3
      apply Logs.restored
      exact Logs.called h3.afterDimDecref trivial
  · simp only [hL]
    apply Logs.bailed
    exact Logs.counted h2.afterDecref

/-- With every allocation succeeding lines 597-783 reach `return 0`. -/
theorem initTail_total {env : Env} (hok : ∀ n, env.allocOk n = true) (a : Args)
    (tmpport : Int) (tmphost : String) (handle rank order : Int) (dimsize : List Int)
    (self : idam_Data) (g : State) :
    ∃ self' g', initTail env a tmpport tmphost handle rank order dimsize self g =
      (0, self', g') := by
  rcases hb : initTail env a tmpport tmphost handle rank order dimsize self g with ⟨r, s, g'⟩
  by_cases hr : r = 0
  · subst hr
    exact ⟨s, g', rfl⟩
  · obtain ⟨-, -, ⟨n, hn⟩, -⟩ := initTail_fail hb hr
    rw [hok n] at hn
    cases hn

/-- The function `Data_init` split at its return statements. -/
theorem Data_init_eq (env : Env) (self : idam_Data) (a : Args) (g : State) :
    Data_init env self a g =
      if a.host.isSome ∧ env.MAXNAME ≤ g.server_host.length then none
      else if env.client.getIdamSourceStatus (handleOf env a g) = 0 then
        some (-1, self, PyErr_SetString (env.client.getIdamErrorMsg (handleOf env a g))
          (restoreServer a (savedPort a g) (savedHost a g) (requestState a g)))
      else if env.client.getIdamDataNum (handleOf env a g) ≤ 0 then
        some (-1, bail (env.client.getIdamErrorMsg (handleOf env a g)) (metaSelf env a g self)
          (restoreServer a (savedPort a g) (savedHost a g) (metaState a g self)))
      else
        match fillDimsize env.client (handleOf env a g)
            (env.client.getIdamRank (handleOf env a g))
            (env.client.getIdamRank (handleOf env a g)).toNat 0 (List.replicate 8 0) with
        | none => none
        | some dimsize =>
          some (initTail env a (savedPort a g) (savedHost a g) (handleOf env a g)
            (env.client.getIdamRank (handleOf env a g))
            (cint (env.client.getIdamRank (handleOf env a g) - 1 -
              env.client.getIdamOrder (handleOf env a g)))
            dimsize (metaSelf env a g self) (metaState a g self)) := by
  obtain ⟨data, source, host, port⟩ := a
  cases host <;> by_cases hp : port > 0 <;>
    simp only [Data_init, handleOf, savedPort, savedHost, requestState, metaSelf, metaState,
      hostInForce, portInForce, hp, if_true, if_false, Option.isSome_none, Option.isSome_some,
      Bool.false_eq_true, false_and, true_and]

/-- After the `dimsize` loop the first `rank` entries are the native sizes in
reverse order. -/
theorem dimsize_take {cl : Client} {handle rank : Int} {ds : List Int}
    (h : fillDimsize cl handle rank rank.toNat 0 (List.replicate 8 0) = some ds) :
    ds.take rank.toNat = (nativeSizes cl handle rank).reverse := by
  obtain ⟨hlen, hr, hget⟩ := fillDimsize_full h
  apply List.ext_getElem?
  intro n
  by_cases hn : n < rank.toNat
  · have h1 : (n : Int) < rank := by omega
    rw [List.getElem?_take_of_lt hn, hget n h1, List.getElem?_reverse (by simp [nativeSizes, hn])]
    simp only [nativeSizes, List.length_map, List.length_range, List.getElem?_map]
    rw [List.getElem?_range (by omega)]
    simp only [Option.map_some']
    congr 2
    omega
  · rw [List.getElem?_eq_none (by simp; omega), List.getElem?_eq_none (by simp [nativeSizes]; omega)]

/-- The one-element shape `&dimsize[i]` denotes. -/
theorem drop_take_one {ds : List Int} {i : Nat} {x : Int} (h : ds[i]? = some x) :
    (ds.drop i).take 1 = [x] := by
  have hlt : i < ds.length := by
    by_contra hc
    rw [List.getElem?_eq_none (by omega)] at h
    cases h
  rw [List.getElem?_eq_getElem hlt] at h
  cases h
  rw [List.drop_eq_getElem_cons hlt]
  rfl

theorem numel_single (x : Int) : numel [x] = x.toNat := by
  simp [numel]

/-- A construction that returns 0 passed the status and element-count checks,
filled `dimsize` within bounds and ran lines 597-783 to the end. -/
theorem Data_init_success {env : Env} {self self' : idam_Data} {a : Args} {g g' : State}
    (h : Data_init env self a g = some (0, self', g')) :
    env.client.getIdamSourceStatus (handleOf env a g) ≠ 0 ∧
      0 < env.client.getIdamDataNum (handleOf env a g) ∧
      ∃ dimsize,
        fillDimsize env.client (handleOf env a g) (env.client.getIdamRank (handleOf env a g))
          (env.client.getIdamRank (handleOf env a g)).toNat 0 (List.replicate 8 0) =
            some dimsize ∧
        Built env a (savedPort a g) (savedHost a g) (handleOf env a g)
          (env.client.getIdamRank (handleOf env a g))
          (cint (env.client.getIdamRank (handleOf env a g) - 1 -
            env.client.getIdamOrder (handleOf env a g)))
          dimsize (metaSelf env a g self) self' (metaState a g self) g' := by
  rw [Data_init_eq] at h
  split at h
  · cases h
  split at h
  · simp at h
  rename_i hst
  split at h
  · simp at h
  rename_i hnum
  refine ⟨hst, by omega, ?_⟩
  split at h
  · cases h
  · rename_i ds hds
    simp only [Option.some.injEq] at h
    exact ⟨ds, hds, initTail_ok h⟩

/-- Wrapping leaves a value within the `int` range unchanged. -/
theorem cint_of_range {x : Int} (h1 : -2147483648 ≤ x) (h2 : x < 2147483648) : cint x = x := by
  unfold cint
  omega

/-- Up to line 582 the only call logged is the request itself. -/
theorem metaState_calls (a : Args) (g : State) (self : idam_Data) :
    (metaState a g self).calls =
      g.calls ++ [.idamGetAPI (hostInForce a g) (portInForce a g) a.data a.source] := by
  simp only [metaState, Py_XDECREF_calls, requestState]

/-- The `dimsize` loop of `Data_init` leaves the buffer at its first write when
`rank > 8`. -/
theorem fillDimsize_overflow (cl : Client) (handle rank : Int) (ds : List Int)
    (h : 8 < rank) : fillDimsize cl handle rank rank.toNat 0 ds = none := by
  obtain ⟨n, hn⟩ : ∃ n, rank.toNat = n + 1 := ⟨rank.toNat - 1, by omega⟩
  rw [hn, fillDimsize, if_neg]
  push_cast
  omega

/-- The `dimsize` loop of `idam_readData` stays inside the buffer as long as
its indices stay below 8. -/
theorem readDimsize_ok (cl : Client) (handle : Int) :
    ∀ (n i : Nat) (ds : List Int), i + n ≤ 8 →
      ∃ ds', readDimsize cl handle n i ds = some ds' ∧ ds'.length = ds.length := by
  intro n
  induction n with
  | zero => exact fun i ds _ => ⟨ds, rfl, rfl⟩
  | succ n ih =>
    intro i ds h
    rw [readDimsize, if_pos (by omega)]
    obtain ⟨ds', e1, e2⟩ := ih (i + 1) (ds.set i (cl.getIdamDimNum handle i)) (by omega)
    exact ⟨ds', e1, by rw [e2, List.length_set]⟩

/-- The `dimsize` loop of `idam_readData` leaves the buffer (at index 8) when it
is to run past index 8. -/
theorem readDimsize_overflow (cl : Client) (handle : Int) :
    ∀ (n i : Nat) (ds : List Int), i ≤ 8 → 8 < i + n →
      readDimsize cl handle n i ds = none := by
  intro n
  induction n with
  | zero =>
    intro i ds h1 h2
    omega
  | succ n ih =>
    intro i ds h1 h2
    rw [readDimsize]
    by_cases hi : i < 8
    · rw [if_pos hi]
      exact ih (i + 1) _ (by omega) (by omega)
    · rw [if_neg hi]

/-- Accesses of lines 597-783 are in bounds when `rank ≤ 8`: the read of the
first `rank` entries, the read of entry `j < rank`, and the calls for native
axis `rank-1-j`. -/
theorem inBounds_of_tail (handle : Int) {rank : Int} (hr : rank ≤ 8) {x : Access}
    (h : x = .dimsize 0 rank ∨
      ∃ j : Nat, j < rank.toNat ∧ isDimAccess handle (rank - 1 - (j : Int)) j x) :
    x.inBounds rank := by
  rcases h with rfl | ⟨j, hj, rfl | rfl | rfl | rfl | rfl | rfl | ⟨s, rfl⟩⟩
  · intro k hk
    omega
  · intro k hk
    simp only [Int.toNat_one, Nat.lt_one_iff] at hk
    subst hk
    omega
  all_goals
    show 0 ≤ rank - 1 - (j : Int) ∧ rank - 1 - (j : Int) < rank
    omega

/-- The accesses `Data_init` enters in the log, whatever its result. -/
theorem Data_init_logs {env : Env} {self self' : idam_Data} {a : Args} {g g' : State} {r : Int}
    (h : Data_init env self a g = some (r, self', g')) :
    ∃ xs, g'.accesses = g.accesses ++ xs ∧
      ∀ x ∈ xs, x = .dimsize 0 (env.client.getIdamRank (handleOf env a g)) ∨
        ∃ j : Nat, j < (env.client.getIdamRank (handleOf env a g)).toNat ∧
          isDimAccess (handleOf env a g)
            (env.client.getIdamRank (handleOf env a g) - 1 - (j : Int)) j x := by
  have hm : (metaState a g self).accesses = g.accesses := by
    simp only [metaState, Py_XDECREF_accesses, requestState]
  rw [Data_init_eq] at h
  split at h
  · cases h
  split at h
  · simp only [Option.some.injEq, Prod.mk.injEq] at h
    obtain ⟨-, -, rfl⟩ := h
    refine ⟨[], ?_, by simp⟩
    show (restoreServer _ _ _ _).accesses = _
    rw [restoreServer_accesses, List.append_nil]
    rfl
  split at h
  · simp only [Option.some.injEq, Prod.mk.injEq] at h
    obtain ⟨-, hb⟩ := h
    have h2 : g' = (bail (env.client.getIdamErrorMsg (handleOf env a g))
        (metaSelf env a g self)
        (restoreServer a (savedPort a g) (savedHost a g) (metaState a g self))).2 := by
      rw [hb]
    have hl : Logs (fun _ => True) (fun _ => False) (metaState a g self) g' := by
      rw [h2]
      exact ((Logs.start _ _ _).restored).bailed
    obtain ⟨xs, e, q⟩ := hl.2
    exact ⟨xs, by rw [e, hm], fun x hx => (q x hx).elim⟩
  split at h
  · cases h
  · rename_i ds hds
    simp only [Option.some.injEq] at h
    have hl := initTail_logs env a (savedPort a g) (savedHost a g) (handleOf env a g)
      (env.client.getIdamRank (handleOf env a g))
      (cint (env.client.getIdamRank (handleOf env a g) - 1 -
        env.client.getIdamOrder (handleOf env a g)))
      ds (metaSelf env a g self) (metaState a g self)
    rw [h] at hl
    obtain ⟨xs, e, q⟩ := hl.2
    exact ⟨xs, by rw [← hm]; exact e, q⟩

/-- The accesses `idam_readData` enters in the log, whatever its result. -/
theorem idam_readData_logs {env : Env} {handle : Int} {g g' : State} {o : PyObj}
    (h : idam_readData env handle g = some (o, g')) :
    ∃ xs, g'.accesses = g.accesses ++ xs ∧
      ∀ x ∈ xs, x = .dimsize 0 (env.client.getIdamRank handle) := by
  simp only [idam_readData] at h
  split at h
  · simp only [Option.some.injEq, Prod.mk.injEq] at h
    obtain ⟨-, rfl⟩ := h
    exact ⟨[], by simp, by simp⟩
  split at h
  · cases h
  split at h
  · rename_i g₁ hA
    simp only [Option.some.injEq, Prod.mk.injEq] at h
    obtain ⟨-, rfl⟩ := h
    exact (Logs.alloc (P := fun _ => True) hA (Logs.start _ _ _) (by simp)).2
  · rename_i id g₁ hA
    simp only [Option.some.injEq, Prod.mk.injEq] at h
    obtain ⟨-, rfl⟩ := h
    exact ((Logs.alloc (P := fun _ => True) hA (Logs.start _ _ _) (by simp)).filled trivial).2

/-- The function `idam_readData` has a defined result when its `dimsize` loop has. -/
theorem idam_readData_defined {env : Env} {handle : Int} {ds : List Int} (g : State)
    (hds : readDimsize env.client handle (env.client.getIdamRank handle).toNat 0
      (List.replicate 8 0) = some ds) :
    ∃ o g', idam_readData env handle g = some (o, g') := by
  simp only [idam_readData]
  split
  · exact ⟨_, _, rfl⟩
  rw [hds]
  simp only
  split
  · exact ⟨_, _, rfl⟩
  · exact ⟨_, _, rfl⟩

/-! ## The claims -/

/-- C1. For a client whose handle is valid, with a positive element count and
rank `R` with `0 ≤ R ≤ 8`, and with every allocation succeeding, `Data_init`
returns 0, the `dim` list of the record has `R` entries and `data` is an array
whose shape is the list of native axis sizes reversed.  (`hfit` says that the
`strcpy` into `tmphost` is within the buffer when a host override is given.) -/
theorem Data_init_rank_and_shape (env : Env) (self : idam_Data) (a : Args) (g : State)
    (hfit : a.host = none ∨ g.server_host.length < env.MAXNAME)
    (hstatus : env.client.getIdamSourceStatus (handleOf env a g) ≠ 0)
    (hnum : 0 < env.client.getIdamDataNum (handleOf env a g))
    (hrank0 : 0 ≤ env.client.getIdamRank (handleOf env a g))
    (hrank8 : env.client.getIdamRank (handleOf env a g) ≤ 8)
    (halloc : ∀ n, env.allocOk n = true) :
    ∃ self' g', Data_init env self a g = some (0, self', g') ∧
      (∃ items, self'.dim = .list items ∧
        (items.length : Int) = env.client.getIdamRank (handleOf env a g)) ∧
      ∃ id arr, self'.data = .arr id ∧ g'.heap[id]? = some arr ∧
        arr.shape = (nativeSizes env.client (handleOf env a g)
          (env.client.getIdamRank (handleOf env a g))).reverse := by
  obtain ⟨ds, hds⟩ := fillDimsize_ok env.client (handleOf env a g) _ hrank8
  obtain ⟨self', g', ht⟩ := initTail_total halloc a (savedPort a g) (savedHost a g)
    (handleOf env a g) (env.client.getIdamRank (handleOf env a g))
    (cint (env.client.getIdamRank (handleOf env a g) - 1 -
      env.client.getIdamOrder (handleOf env a g))) ds (metaSelf env a g self)
    (metaState a g self)
  have hres : Data_init env self a g = some (0, self', g') := by
    rw [Data_init_eq, if_neg, if_neg hstatus, if_neg (by omega), hds]
    · simp only [ht]
    · rintro ⟨h1, h2⟩
      rcases hfit with h | h
      · rw [h] at h1
        cases h1
      · omega
  have hb := initTail_ok ht
  refine ⟨self', g', hres, ?_, ?_⟩
  · obtain ⟨items, e1, e2, -, -⟩ := hb.dims
    exact ⟨items, e1, by rw [e2, Int.toNat_of_nonneg hrank0]⟩
  · obtain ⟨id, arr, e1, e2, e3, -⟩ := hb.dataArr
    exact ⟨id, arr, e1, e2, by rw [e3, dimsize_take hds]⟩

/-- Witness for C1: the spec's example client, sizes `[2,3,4]`, with host and port
overridden; the record has 3 dimensions and `data` has shape `[4,3,2]`. -/
theorem Data_init_rank_and_shape_witness :
    (argsOverride.host = none ∨ st0.server_host.length < (fakeEnvOk clientA).MAXNAME) ∧
    clientA.getIdamSourceStatus
        (handleOf (fakeEnvOk clientA) argsOverride st0) ≠ 0 ∧
    0 < clientA.getIdamDataNum
        (handleOf (fakeEnvOk clientA) argsOverride st0) ∧
    ∃ self' g', Data_init (fakeEnvOk clientA) Data_new argsOverride st0 =
        some (0, self', g') ∧
      (∃ items, self'.dim = .list items ∧ (items.length : Int) = 3) ∧
      ∃ id arr, self'.data = .arr id ∧ g'.heap[id]? = some arr ∧ arr.shape = [4, 3, 2] :=
  ⟨by decide, by decide, by decide,
    Data_init_rank_and_shape (fakeEnvOk clientA) Data_new
      argsOverride st0 (by decide) (by decide) (by decide) (by decide) (by decide)
      (fun _ => rfl)⟩

/-- C2 as stated fails: a client of rank 1 that reports native time index -1
(no time axis) is constructed successfully with `order = 1` and `time = None`,
and there is no `dim[1]`. -/
theorem time_alias_counterexample :
    Data_init (fakeEnvOk clientNoTime) Data_new argsPlain st0 = some (0, recNoTime, stNoTime) ∧
    clientNoTime.getIdamRank 7 = 1 ∧ clientNoTime.getIdamOrder 7 = -1 ∧
    ¬ TimeAliased 1 (-1) recNoTime := by
  refine ⟨by decide, rfl, rfl, ?_⟩
  rintro ⟨-, items, d, id, -, -, -, h⟩
  cases h

/-- C2, amended. For every successful construction with rank `R` and native
time index `t`: `order` is `R-1-t` in C `int` arithmetic; when `0 ≤ t < R`,
`order = R-1-t` and `time` is the same array object as `dim[R-1-t].data`; when
`t` (a C `int`) is outside `[0, R)` no axis is aliased and `time` is `None`. -/
theorem Data_init_time_axis (env : Env) (self self' : idam_Data) (a : Args) (g g' : State)
    (hsucc : Data_init env self a g = some (0, self', g')) :
    self'.order = cint (env.client.getIdamRank (handleOf env a g) - 1 -
        env.client.getIdamOrder (handleOf env a g)) ∧
      (0 ≤ env.client.getIdamOrder (handleOf env a g) →
        env.client.getIdamOrder (handleOf env a g) < env.client.getIdamRank (handleOf env a g) →
        TimeAliased (env.client.getIdamRank (handleOf env a g))
          (env.client.getIdamOrder (handleOf env a g)) self') ∧
      (-2147483648 ≤ env.client.getIdamOrder (handleOf env a g) →
        env.client.getIdamOrder (handleOf env a g) < 2147483648 →
        ¬ (0 ≤ env.client.getIdamOrder (handleOf env a g) ∧
          env.client.getIdamOrder (handleOf env a g) <
            env.client.getIdamRank (handleOf env a g)) →
        self'.time = .none) := by
  obtain ⟨-, -, ds, hds, hb⟩ := Data_init_success hsucc
  obtain ⟨-, hr8, -⟩ := fillDimsize_full hds
  obtain ⟨items, e1, e2, e3, e4⟩ := hb.dims
  generalize env.client.getIdamRank (handleOf env a g) = R at *
  generalize env.client.getIdamOrder (handleOf env a g) = t at *
  refine ⟨hb.orderEq, ?_, ?_⟩
  · intro h0 h1
    have hc : cint (R - 1 - t) = R - 1 - t := cint_of_range (by omega) (by omega)
    obtain ⟨d, f1, f2, f3⟩ := e3 (R - 1 - t).toNat (by omega)
    obtain ⟨id, arr, g1, -⟩ := f2.2.2.1
    refine ⟨by rw [hb.orderEq, hc], items, d, id, e1, f1, g1, ?_⟩
    rw [f3 (by rw [hc]; omega), g1]
  · intro h0 h1 hout
    apply e4
    intro j hj
    unfold cint
    omega

/-- Witness for the amended C2: the example client (native time axis 1 of 3) and the
client without a time axis. -/
theorem Data_init_time_axis_witness :
    (Data_init (fakeEnvOk clientA) Data_new argsPlain st0 = some (0, recA, stA) ∧
      TimeAliased 3 1 recA) ∧
    (Data_init (fakeEnvOk clientNoTime) Data_new argsPlain st0 = some (0, recNoTime, stNoTime) ∧
      recNoTime.time = .none) :=
  ⟨⟨by decide,
    (Data_init_time_axis (fakeEnvOk clientA) Data_new recA argsPlain st0 stA
      (by decide)).2.1 (by decide) (by decide)⟩,
   ⟨by decide,
    (Data_init_time_axis (fakeEnvOk clientNoTime) Data_new recNoTime argsPlain st0 stNoTime
      (by decide)).2.2 (by decide) (by decide) (by decide)⟩⟩

/-- C3. For every successful construction and every output axis `i` below the
rank `R`, `dim[i]` is built from native axis `R-1-i`: its label and units are
the client's for that native index, and its data is a 1-D array whose length is
the client's size of native axis `R-1-i` and whose contents are what the
client's `getIdamFloatDimData` wrote for native index `R-1-i`. -/
theorem Data_init_dimension (env : Env) (self self' : idam_Data) (a : Args) (g g' : State)
    (hsucc : Data_init env self a g = some (0, self', g')) (i : Nat)
    (hi : (i : Int) < env.client.getIdamRank (handleOf env a g)) :
    ∃ items d id arr, self'.dim = .list items ∧ items[i]? = some (some d) ∧
      d.label = .str (env.client.getIdamDimLabel (handleOf env a g)
        (env.client.getIdamRank (handleOf env a g) - 1 - i)) ∧
      d.units = .str (env.client.getIdamDimUnits (handleOf env a g)
        (env.client.getIdamRank (handleOf env a g) - 1 - i)) ∧
      d.data = .arr id ∧ g'.heap[id]? = some arr ∧
      arr.shape = [env.client.getIdamDimNum (handleOf env a g)
        (env.client.getIdamRank (handleOf env a g) - 1 - i)] ∧
      arr.data = env.client.getIdamFloatDimData (handleOf env a g)
        (env.client.getIdamRank (handleOf env a g) - 1 - i)
        (List.replicate (env.client.getIdamDimNum (handleOf env a g)
          (env.client.getIdamRank (handleOf env a g) - 1 - i)).toNat 0) := by
  obtain ⟨-, -, ds, hds, hb⟩ := Data_init_success hsucc
  obtain ⟨-, -, hget⟩ := fillDimsize_full hds
  obtain ⟨items, e1, -, e3, -⟩ := hb.dims
  obtain ⟨d, f1, ⟨l1, l2, l3, -⟩, -⟩ := e3 i (by omega)
  rw [drop_take_one (hget i hi), numel_single] at l3
  obtain ⟨id, arr, g1, g2, g3, g4⟩ := l3
  exact ⟨items, d, id, arr, e1, f1, l1, l2, g1, g2, g3, g4⟩

/-- Witness for C3: output axis 0 of the example client is native axis 2, of size 4. -/
theorem Data_init_dimension_witness :
    Data_init (fakeEnvOk clientA) Data_new argsPlain st0 = some (0, recA, stA) ∧
    ((0 : Nat) : Int) < 3 ∧
    ∃ items d id arr, recA.dim = .list items ∧ items[0]? = some (some d) ∧
      d.label = .str "x" ∧ d.units = .str "m" ∧ d.data = .arr id ∧
      stA.heap[id]? = some arr ∧ arr.shape = [4] ∧ arr.data = [20, 21, 22, 23] :=
  ⟨by decide, by decide,
    Data_init_dimension (fakeEnvOk clientA) Data_new recA argsPlain st0 stA (by decide) 0
      (by decide)⟩

/-- C4, the code at the failing inputs. With global host `"a"` and port 1 and
the overrides `"b"` and 2: when `PyList_New` fails (second checked allocation)
or when the array of a dimension cannot be allocated (third), `Data_init`
returns -1 and leaves the server host at `"b"` and the port at 2; when the
primary array cannot be allocated (first) it returns -1 with `"a"` and 1 put
back. -/
theorem Data_init_override_not_restored :
    (Data_init (fakeEnv clientLine 1) Data_new argsOverride st0).map
        (fun r => (r.1, r.2.2.server_host, r.2.2.server_port, r.2.2.pyerr)) =
      some (-1, "b", 2, some "Could not create list of dimensions") ∧
    (Data_init (fakeEnv clientLine 2) Data_new argsOverride st0).map
        (fun r => (r.1, r.2.2.server_host, r.2.2.server_port, r.2.2.pyerr)) =
      some (-1, "b", 2, some "Could not create NumPy array for dimension") ∧
    (Data_init (fakeEnv clientLine 0) Data_new argsOverride st0).map
        (fun r => (r.1, r.2.2.server_host, r.2.2.server_port, r.2.2.pyerr)) =
      some (-1, "a", 1, some "Could not create NumPy array for data") := by
  decide

/-- C5, the code at the failing inputs. When the client reports the handle's
status as invalid, or an element count of zero, or when the primary array
cannot be allocated, `Data_init` returns -1 and the calls made to the client
are the request alone, with no `idamFree`; the successful construction on the
example client calls `idamFree` on the handle once. -/
theorem Data_init_failure_never_frees :
    (Data_init (fakeEnvOk clientInvalid) Data_new argsPlain st0).map
        (fun r => (r.1, r.2.2.calls)) = some (-1, [.idamGetAPI "a" 1 "ip" "15100"]) ∧
    (Data_init (fakeEnvOk clientEmpty) Data_new argsPlain st0).map
        (fun r => (r.1, r.2.2.calls)) = some (-1, [.idamGetAPI "a" 1 "ip" "15100"]) ∧
    (Data_init (fakeEnv clientLine 0) Data_new argsPlain st0).map
        (fun r => (r.1, r.2.2.calls)) = some (-1, [.idamGetAPI "a" 1 "ip" "15100"]) ∧
    (Data_init (fakeEnvOk clientA) Data_new argsPlain st0).map
        (fun r => (r.1, r.2.2.calls.count (.idamFree 7))) = some (0, 1) := by
  decide

/-- C6. With every allocation succeeding (and the `strcpy` into `tmphost`
within the buffer), `Data_init` returns a failure code if and only if the
client reports the handle's status as invalid or its element count as zero or
negative; in those cases the error set is exactly the client's error message
for the handle; and otherwise, for a rank of at most 8, it returns 0. -/
theorem Data_init_fails_iff (env : Env) (self : idam_Data) (a : Args) (g : State)
    (halloc : ∀ n, env.allocOk n = true)
    (hfit : a.host = none ∨ g.server_host.length < env.MAXNAME) :
    ((∃ r self' g', r ≠ 0 ∧ Data_init env self a g = some (r, self', g')) ↔
      (env.client.getIdamSourceStatus (handleOf env a g) = 0 ∨
        env.client.getIdamDataNum (handleOf env a g) ≤ 0)) ∧
    (∀ r self' g', r ≠ 0 → Data_init env self a g = some (r, self', g') →
      g'.pyerr = some (env.client.getIdamErrorMsg (handleOf env a g))) ∧
    (env.client.getIdamRank (handleOf env a g) ≤ 8 →
      ¬ (env.client.getIdamSourceStatus (handleOf env a g) = 0 ∨
        env.client.getIdamDataNum (handleOf env a g) ≤ 0) →
      ∃ self' g', Data_init env self a g = some (0, self', g')) := by
  have hnf : ¬ (a.host.isSome ∧ env.MAXNAME ≤ g.server_host.length) := by
    rintro ⟨h1, h2⟩
    rcases hfit with h | h
    · rw [h] at h1
      cases h1
    · omega
  have key : ∀ r self' g', r ≠ 0 → Data_init env self a g = some (r, self', g') →
      (env.client.getIdamSourceStatus (handleOf env a g) = 0 ∨
        env.client.getIdamDataNum (handleOf env a g) ≤ 0) ∧
      g'.pyerr = some (env.client.getIdamErrorMsg (handleOf env a g)) := by
    intro r self' g' hr h
    rw [Data_init_eq, if_neg hnf] at h
    split at h
    · rename_i hst
      simp only [Option.some.injEq, Prod.mk.injEq] at h
      obtain ⟨-, -, rfl⟩ := h
      exact ⟨Or.inl hst, rfl⟩
    split at h
    · rename_i hst hnum
      simp only [Option.some.injEq, Prod.mk.injEq] at h
      obtain ⟨-, -, rfl⟩ := h
      exact ⟨Or.inr hnum, rfl⟩
    split at h
    · cases h
    · simp only [Option.some.injEq] at h
      obtain ⟨-, -, ⟨n, hn⟩, -⟩ := initTail_fail h hr
      rw [halloc n] at hn
      cases hn
  refine ⟨⟨fun ⟨r, s, g', hr, h⟩ => (key r s g' hr h).1, ?_⟩,
    fun r s g' hr h => (key r s g' hr h).2, ?_⟩
  · intro hc
    rw [Data_init_eq, if_neg hnf]
    by_cases hst : env.client.getIdamSourceStatus (handleOf env a g) = 0
    · rw [if_pos hst]
      exact ⟨-1, _, _, by decide, rfl⟩
    · have hnum : env.client.getIdamDataNum (handleOf env a g) ≤ 0 := by
        rcases hc with h | h
        · exact absurd h hst
        · exact h
      rw [if_neg hst, if_pos hnum]
      exact ⟨-1, _, _, by decide, rfl⟩
  · intro hr8 hc
    push_neg at hc
    obtain ⟨ds, hds⟩ := fillDimsize_ok env.client (handleOf env a g) _ hr8
    obtain ⟨self', g', ht⟩ := initTail_total halloc a (savedPort a g) (savedHost a g)
      (handleOf env a g) (env.client.getIdamRank (handleOf env a g))
      (cint (env.client.getIdamRank (handleOf env a g) - 1 -
        env.client.getIdamOrder (handleOf env a g))) ds (metaSelf env a g self)
      (metaState a g self)
    refine ⟨self', g', ?_⟩
    rw [Data_init_eq, if_neg hnf, if_neg hc.1, if_neg (by omega), hds]
    simp only [ht]

/-- Witness for C6: a client with an element count of zero fails with the client's
message, and the example client is constructed successfully. -/
theorem Data_init_fails_iff_witness :
    ((∀ n, (fakeEnvOk clientEmpty).allocOk n = true) ∧
      (argsOverride.host = none ∨ st0.server_host.length < (fakeEnvOk clientEmpty).MAXNAME) ∧
      (-1 : Int) ≠ 0 ∧
      Data_init (fakeEnvOk clientEmpty) Data_new argsOverride st0 =
        some (-1, recEmpty, stFailed) ∧
      stFailed.pyerr = some "no such signal") ∧
    ((∀ n, (fakeEnvOk clientA).allocOk n = true) ∧
      (argsPlain.host = none ∨ st0.server_host.length < (fakeEnvOk clientA).MAXNAME) ∧
      clientA.getIdamRank 7 ≤ 8 ∧
      ¬ (clientA.getIdamSourceStatus 7 = 0 ∨ clientA.getIdamDataNum 7 ≤ 0) ∧
      ∃ self' g', Data_init (fakeEnvOk clientA) Data_new argsPlain st0 = some (0, self', g')) :=
  ⟨⟨fun _ => rfl, by decide, by decide, by decide,
    (Data_init_fails_iff (fakeEnvOk clientEmpty) Data_new argsOverride st0 (fun _ => rfl)
      (by decide)).2.1 (-1) recEmpty stFailed (by decide) (by decide)⟩,
   ⟨fun _ => rfl, by decide, by decide, by decide,
    (Data_init_fails_iff (fakeEnvOk clientA) Data_new argsPlain st0 (fun _ => rfl)
      (by decide)).2.2 (by decide) (by decide)⟩⟩

/-- C7. For every successful construction where the client reports primary
error data (error type not `TYPE_UNKNOWN`) that is not asymmetric, `errl` and
`errh` are one and the same array object, of the shape of the primary array,
holding what the client wrote for side 0. -/
theorem Data_init_symmetric_error (env : Env) (self self' : idam_Data) (a : Args)
    (g g' : State) (hsucc : Data_init env self a g = some (0, self', g'))
    (htype : env.client.getIdamErrorType (handleOf env a g) ≠ env.TYPE_UNKNOWN)
    (hsym : env.client.getIdamErrorAsymmetry (handleOf env a g) = 0) :
    ∃ id err p prim, self'.errl = .arr id ∧ self'.errh = .arr id ∧
      g'.heap[id]? = some err ∧ self'.data = .arr p ∧ g'.heap[p]? = some prim ∧
      err.shape = prim.shape ∧
      err.data = env.client.getIdamFloatAsymmetricError (handleOf env a g) 0
        (List.replicate (numel prim.shape) 0) := by
  obtain ⟨-, -, ds, -, hb⟩ := Data_init_success hsucc
  obtain ⟨⟨id, err, e1, e2, e3, e4⟩, hs, -⟩ := hb.errArr htype
  obtain ⟨p, prim, p1, p2, p3, -⟩ := hb.dataArr
  exact ⟨id, err, p, prim, e1, by rw [hs hsym, e1], e2, p1, p2, by rw [e3, p3],
    by rw [e4, p3]⟩

/-- Witness for C7: a rank-1 client with symmetric error data. -/
theorem Data_init_symmetric_error_witness :
    Data_init (fakeEnvOk clientSym) Data_new argsPlain st0 = some (0, recSym, stSym) ∧
    clientSym.getIdamErrorType 7 ≠ 0 ∧ clientSym.getIdamErrorAsymmetry 7 = 0 ∧
    ∃ id err p prim, recSym.errl = .arr id ∧ recSym.errh = .arr id ∧
      stSym.heap[id]? = some err ∧ recSym.data = .arr p ∧ stSym.heap[p]? = some prim ∧
      err.shape = prim.shape ∧
      err.data = clientSym.getIdamFloatAsymmetricError 7 0
        (List.replicate (numel prim.shape) 0) :=
  ⟨by decide, by decide, by decide,
    Data_init_symmetric_error (fakeEnvOk clientSym) Data_new recSym argsPlain st0 stSym
      (by decide) (by decide) (by decide)⟩

/-- C8. For every successful construction where the client reports primary
error data that is asymmetric, `errl` and `errh` are two distinct array
objects of the shape of the primary array, `errl` holding what the client
wrote for side 0 and `errh` what it wrote for side 1. -/
theorem Data_init_asymmetric_error (env : Env) (self self' : idam_Data) (a : Args)
    (g g' : State) (hsucc : Data_init env self a g = some (0, self', g'))
    (htype : env.client.getIdamErrorType (handleOf env a g) ≠ env.TYPE_UNKNOWN)
    (hasym : env.client.getIdamErrorAsymmetry (handleOf env a g) ≠ 0) :
    ∃ il ih lo hi p prim, self'.errl = .arr il ∧ self'.errh = .arr ih ∧ il ≠ ih ∧
      g'.heap[il]? = some lo ∧ g'.heap[ih]? = some hi ∧
      self'.data = .arr p ∧ g'.heap[p]? = some prim ∧
      lo.shape = prim.shape ∧ hi.shape = prim.shape ∧
      lo.data = env.client.getIdamFloatAsymmetricError (handleOf env a g) 0
        (List.replicate (numel prim.shape) 0) ∧
      hi.data = env.client.getIdamFloatAsymmetricError (handleOf env a g) 1
        (List.replicate (numel prim.shape) 0) := by
  obtain ⟨-, -, ds, -, hb⟩ := Data_init_success hsucc
  obtain ⟨⟨il, lo, e1, e2, e3, e4⟩, -, ha⟩ := hb.errArr htype
  obtain ⟨hne, ih, hi, h1, h2, h3, h4⟩ := ha hasym
  obtain ⟨p, prim, p1, p2, p3, -⟩ := hb.dataArr
  refine ⟨il, ih, lo, hi, p, prim, e1, h1, ?_, e2, h2, p1, p2, by rw [e3, p3], by rw [h3, p3],
    by rw [e4, p3], by rw [h4, p3]⟩
  intro hc
  apply hne
  rw [h1, e1, hc]

/-- Witness for C8: a rank-1 client with asymmetric error data. -/
theorem Data_init_asymmetric_error_witness :
    Data_init (fakeEnvOk clientAsym) Data_new argsPlain st0 = some (0, recAsym, stAsym) ∧
    clientAsym.getIdamErrorType 7 ≠ 0 ∧ clientAsym.getIdamErrorAsymmetry 7 ≠ 0 ∧
    ∃ il ih lo hi p prim, recAsym.errl = .arr il ∧ recAsym.errh = .arr ih ∧ il ≠ ih ∧
      stAsym.heap[il]? = some lo ∧ stAsym.heap[ih]? = some hi ∧
      recAsym.data = .arr p ∧ stAsym.heap[p]? = some prim ∧
      lo.shape = prim.shape ∧ hi.shape = prim.shape ∧
      lo.data = clientAsym.getIdamFloatAsymmetricError 7 0
        (List.replicate (numel prim.shape) 0) ∧
      hi.data = clientAsym.getIdamFloatAsymmetricError 7 1
        (List.replicate (numel prim.shape) 0) :=
  ⟨by decide, by decide, by decide,
    Data_init_asymmetric_error (fakeEnvOk clientAsym) Data_new recAsym argsPlain st0 stAsym
      (by decide) (by decide) (by decide)⟩

/-- C9. For every successful construction where the client reports no primary
error data (error type `TYPE_UNKNOWN`), `errl` and `errh` are both `None`, and
none of the calls made to the client during the construction asks for a
primary error buffer. -/
theorem Data_init_no_error (env : Env) (self self' : idam_Data) (a : Args)
    (g g' : State) (hsucc : Data_init env self a g = some (0, self', g'))
    (htype : env.client.getIdamErrorType (handleOf env a g) = env.TYPE_UNKNOWN) :
    self'.errl = .none ∧ self'.errh = .none ∧
      ∃ cs, g'.calls = g.calls ++ cs ∧
        ∀ c ∈ cs, ∀ h side, c ≠ .getIdamFloatAsymmetricError h side := by
  obtain ⟨-, -, ds, -, hb⟩ := Data_init_success hsucc
  obtain ⟨cs, hcs, hp⟩ := hb.calls
  refine ⟨(hb.noErr htype).1, (hb.noErr htype).2,
    .idamGetAPI (hostInForce a g) (portInForce a g) a.data a.source ::
      (cs ++ [.idamFree (handleOf env a g)]), ?_, ?_⟩
  · rw [hcs, metaState_calls]
    simp
  · intro c hc h side heq
    subst heq
    simp only [List.mem_cons, List.mem_append, List.mem_singleton, List.not_mem_nil,
      or_false] at hc
    rcases hc with hc | hc | hc
    · cases hc
    · rcases hp _ hc with h1 | ⟨-, h2⟩ | ⟨j, -, h3 | ⟨s, h3⟩⟩
      · cases h1
      · exact h2 htype
      · cases h3
      · cases h3
    · cases hc

/-- Witness for C9: the example client reports no error data. -/
theorem Data_init_no_error_witness :
    Data_init (fakeEnvOk clientA) Data_new argsPlain st0 = some (0, recA, stA) ∧
    clientA.getIdamErrorType 7 = 0 ∧
    recA.errl = .none ∧ recA.errh = .none ∧
      ∃ cs, stA.calls = st0.calls ++ cs ∧
        ∀ c ∈ cs, ∀ h side, c ≠ .getIdamFloatAsymmetricError h side :=
  ⟨by decide, by decide,
    Data_init_no_error (fakeEnvOk clientA) Data_new recA argsPlain st0 stA (by decide)
      (by decide)⟩

/-- C11. For every host string `h`, integer port `p` and global state,
`setHost(h, p)` leaves the global host equal to `h`, and the global port is `p`
when `p > 0` and unchanged when `p ≤ 0`; `setHost(h)` without a port leaves the
global host equal to `h` and the port unchanged. -/
theorem idam_setHost_host_and_port (h : String) (p : Int) (g : State) :
    (idam_setHost h (some p) g).server_host = h ∧
    (0 < p → (idam_setHost h (some p) g).server_port = p) ∧
    (p ≤ 0 → (idam_setHost h (some p) g).server_port = g.server_port) ∧
    (idam_setHost h none g).server_host = h ∧
    (idam_setHost h none g).server_port = g.server_port := by
  refine ⟨rfl, fun hp => ?_, fun hp => ?_, rfl, ?_⟩
  · simp only [idam_setHost, gt_iff_lt, hp, if_true]
  · have : ¬ p > 0 := by omega
    simp only [idam_setHost, this, if_false]
  · simp [idam_setHost]

/-- Witness for C11: from host `"a"`, port 1, `setHost("b", 2)` gives `"b"`/2 and
`setHost("b", 0)` gives `"b"`/1. -/
theorem idam_setHost_host_and_port_witness :
    ((0 : Int) < 2 ∧ (idam_setHost "b" (some 2) st0).server_port = 2) ∧
    ((0 : Int) ≤ 0 ∧ (idam_setHost "b" (some 0) st0).server_port = 1) :=
  ⟨⟨by decide, (idam_setHost_host_and_port "b" 2 st0).2.1 (by decide)⟩,
   ⟨by decide, (idam_setHost_host_and_port "b" 0 st0).2.2.1 (by decide)⟩⟩

/-- C12. For every successful construction with rank `R` and every output axis
`i < R`, the error bars of `dim[i]` follow the client's error queries for
native axis `R-1-i`: with no error data both `errl` and `errh` are `None`; with
error data, `errl` is a 1-D array of the shape of `dim[i].data` filled from
side 0, and `errh` is the same array object when the error is symmetric and a
distinct array of that shape filled from side 1 when it is asymmetric. -/
theorem Data_init_dimension_errors (env : Env) (self self' : idam_Data) (a : Args)
    (g g' : State) (hsucc : Data_init env self a g = some (0, self', g')) (i : Nat)
    (hi : (i : Int) < env.client.getIdamRank (handleOf env a g)) :
    ∃ items d da dat, self'.dim = .list items ∧ items[i]? = some (some d) ∧
      d.data = .arr da ∧ g'.heap[da]? = some dat ∧
      dat.shape = [env.client.getIdamDimNum (handleOf env a g)
        (env.client.getIdamRank (handleOf env a g) - 1 - i)] ∧
      (env.client.getIdamDimErrorType (handleOf env a g)
          (env.client.getIdamRank (handleOf env a g) - 1 - i) = env.TYPE_UNKNOWN →
        d.errl = .none ∧ d.errh = .none) ∧
      (env.client.getIdamDimErrorType (handleOf env a g)
          (env.client.getIdamRank (handleOf env a g) - 1 - i) ≠ env.TYPE_UNKNOWN →
        ∃ il lo, d.errl = .arr il ∧ g'.heap[il]? = some lo ∧ lo.shape = dat.shape ∧
          lo.data = env.client.getIdamFloatDimAsymmetricError (handleOf env a g)
            (env.client.getIdamRank (handleOf env a g) - 1 - i) 0
            (List.replicate (numel dat.shape) 0) ∧
          (env.client.getIdamDimErrorAsymmetry (handleOf env a g)
              (env.client.getIdamRank (handleOf env a g) - 1 - i) = 0 →
            d.errh = .arr il) ∧
          (env.client.getIdamDimErrorAsymmetry (handleOf env a g)
              (env.client.getIdamRank (handleOf env a g) - 1 - i) ≠ 0 →
            ∃ ih hi, d.errh = .arr ih ∧ ih ≠ il ∧ g'.heap[ih]? = some hi ∧
              hi.shape = dat.shape ∧
              hi.data = env.client.getIdamFloatDimAsymmetricError (handleOf env a g)
                (env.client.getIdamRank (handleOf env a g) - 1 - i) 1
                (List.replicate (numel dat.shape) 0))) := by
  obtain ⟨-, -, ds, hds, hb⟩ := Data_init_success hsucc
  obtain ⟨-, -, hget⟩ := fillDimsize_full hds
  obtain ⟨items, e1, -, e3, -⟩ := hb.dims
  obtain ⟨d, f1, ⟨-, -, l3, l4, l5⟩, -⟩ := e3 i (by omega)
  rw [drop_take_one (hget i hi)] at l3 l5
  obtain ⟨da, dat, g1, g2, g3, -⟩ := l3
  refine ⟨items, d, da, dat, e1, f1, g1, g2, g3, l4, fun hT => ?_⟩
  obtain ⟨⟨il, lo, m1, m2, m3, m4⟩, hs, ha⟩ := l5 hT
  refine ⟨il, lo, m1, m2, by rw [m3, g3], by rw [m4, g3], fun hS => by rw [hs hS, m1],
    fun hA => ?_⟩
  obtain ⟨hne, ih, hi', n1, n2, n3, n4⟩ := ha hA
  refine ⟨ih, hi', n1, ?_, n2, by rw [n3, g3], by rw [n4, g3]⟩
  intro hc
  apply hne
  rw [n1, m1, hc]

/-- Witness for C12: a rank-1 client whose axis has symmetric error data and one
whose axis has asymmetric error data. -/
theorem Data_init_dimension_errors_witness :
    (Data_init (fakeEnvOk clientDimSym) Data_new argsPlain st0 =
        some (0, recDimSym, stDimSym) ∧ ((0 : Nat) : Int) < 1 ∧
      ∃ items d da dat, recDimSym.dim = .list items ∧ items[0]? = some (some d) ∧
        d.data = .arr da ∧ stDimSym.heap[da]? = some dat ∧ dat.shape = [3] ∧
        ((1 : Int) = 0 → d.errl = .none ∧ d.errh = .none) ∧
        ((1 : Int) ≠ 0 → ∃ il lo, d.errl = .arr il ∧ stDimSym.heap[il]? = some lo ∧
          lo.shape = dat.shape ∧
          lo.data = clientDimSym.getIdamFloatDimAsymmetricError 7 0 0
            (List.replicate (numel dat.shape) 0) ∧
          ((0 : Int) = 0 → d.errh = .arr il) ∧
          ((0 : Int) ≠ 0 → ∃ ih hi, d.errh = .arr ih ∧ ih ≠ il ∧
            stDimSym.heap[ih]? = some hi ∧ hi.shape = dat.shape ∧
            hi.data = clientDimSym.getIdamFloatDimAsymmetricError 7 0 1
              (List.replicate (numel dat.shape) 0)))) ∧
    (Data_init (fakeEnvOk clientDimAsym) Data_new argsPlain st0 =
        some (0, recDimAsym, stDimAsym) ∧
      ∃ items d, recDimAsym.dim = .list items ∧ items[0]? = some (some d) ∧
        d.errl ≠ d.errh) :=
  ⟨⟨by decide, by decide,
    Data_init_dimension_errors (fakeEnvOk clientDimSym) Data_new recDimSym argsPlain st0
      stDimSym (by decide) 0 (by decide)⟩,
   ⟨by decide, by
    obtain ⟨items, d, da, dat, h1, h2, -, -, -, -, h3⟩ :=
      Data_init_dimension_errors (fakeEnvOk clientDimAsym) Data_new recDimAsym argsPlain st0
        stDimAsym (by decide) 0 (by decide)
    obtain ⟨il, lo, m1, -, -, -, -, m2⟩ := h3 (by decide)
    obtain ⟨ih, hi, n1, n2, -⟩ := m2 (by decide)
    refine ⟨items, d, h1, h2, ?_⟩
    rw [m1, n1]
    intro hc
    exact n2 (by injection hc with hc; exact hc.symm)⟩⟩

/-- C13, the code at the failing input. For a rank-1 client whose axis has
symmetric error data, `Data_init` returns 0 with `dim[0].errl` and
`dim[0].errh` both the array at heap position 2: two fields refer to it, its
reference count is 1, and the two decrements of `Dimension_dealloc` take the
count to -1.  The accounting holds on the runs without symmetric dimension
errors (primary symmetric errors, asymmetric dimension errors). -/
theorem Data_init_shared_dimension_error_count :
    Data_init (fakeEnvOk clientDimSym) Data_new argsPlain st0 =
      some (0, recDimSym, stDimSym) ∧
    recDimSym.dim = .list [some dimSym] ∧ dimSym.errl = .arr 2 ∧ dimSym.errh = .arr 2 ∧
    fieldRefs recDimSym 2 = 2 ∧
    (stDimSym.heap[2]?).map NdArray.ob_refcnt = some 1 ∧
    ¬ refcountsBalanced 0 recDimSym stDimSym ∧
    ((Dimension_dealloc dimSym stDimSym).heap[2]?).map NdArray.ob_refcnt = some (-1) ∧
    (Data_init (fakeEnvOk clientSym) Data_new argsPlain st0 = some (0, recSym, stSym) ∧
      refcountsBalanced 0 recSym stSym) ∧
    (Data_init (fakeEnvOk clientDimAsym) Data_new argsPlain st0 =
        some (0, recDimAsym, stDimAsym) ∧
      refcountsBalanced 0 recDimAsym stDimAsym) := by
  unfold refcountsBalanced
  decide

/-- C14. When the client reports `rank ≤ 8`, `Data_init` and `idam_readData`
have a defined result (no write of their `dimsize` loops, at `rank-1-i` resp.
`i`, leaves the 8-entry buffer), and every access they log is in bounds: each
read of `dimsize` by `PyArray_SimpleNew` (the first `rank` entries, or the one
entry `dimsize[i]`) lies inside the buffer, and each call of `getIdamDimLabel`,
`getIdamDimUnits`, `getIdamFloatDimData`, `getIdamDimErrorType`,
`getIdamFloatDimAsymmetricError` and `getIdamDimErrorAsymmetry` is for a native
axis index in `[0, rank)`.  When `rank > 8` (valid handle, positive element
count) a write leaves the buffer and neither function has a defined result. -/
theorem dimsize_accesses_in_bounds (env : Env) (self : idam_Data) (a : Args) (g : State)
    (handle : Int) :
    (env.client.getIdamRank (handleOf env a g) ≤ 8 →
      (∃ ds, fillDimsize env.client (handleOf env a g)
            (env.client.getIdamRank (handleOf env a g))
            (env.client.getIdamRank (handleOf env a g)).toNat 0 (List.replicate 8 0) = some ds ∧
          ds.length = 8) ∧
      ((a.host = none ∨ g.server_host.length < env.MAXNAME) →
        ∃ r self' g' xs, Data_init env self a g = some (r, self', g') ∧
          g'.accesses = g.accesses ++ xs ∧
          ∀ x ∈ xs, x.inBounds (env.client.getIdamRank (handleOf env a g)))) ∧
    (env.client.getIdamRank handle ≤ 8 →
      (∃ ds, readDimsize env.client handle (env.client.getIdamRank handle).toNat 0
            (List.replicate 8 0) = some ds ∧
          ds.length = 8) ∧
      ∃ o g' xs, idam_readData env handle g = some (o, g') ∧
        g'.accesses = g.accesses ++ xs ∧
        ∀ x ∈ xs, x.inBounds (env.client.getIdamRank handle)) ∧
    (8 < env.client.getIdamRank (handleOf env a g) →
      fillDimsize env.client (handleOf env a g) (env.client.getIdamRank (handleOf env a g))
        (env.client.getIdamRank (handleOf env a g)).toNat 0 (List.replicate 8 0) = none ∧
      (env.client.getIdamSourceStatus (handleOf env a g) ≠ 0 →
        0 < env.client.getIdamDataNum (handleOf env a g) →
        Data_init env self a g = none)) ∧
    (8 < env.client.getIdamRank handle →
      readDimsize env.client handle (env.client.getIdamRank handle).toNat 0
        (List.replicate 8 0) = none ∧
      (0 < env.client.getIdamDataNum handle → idam_readData env handle g = none)) := by
  refine ⟨fun hr => ?_, fun hr => ?_, fun hr => ?_, fun hr => ?_⟩
  · obtain ⟨ds, hds⟩ := fillDimsize_ok env.client (handleOf env a g) _ hr
    obtain ⟨hlen, -, -⟩ := fillDimsize_full hds
    refine ⟨⟨ds, hds, hlen⟩, fun hfit => ?_⟩
    have hnf : ¬ (a.host.isSome ∧ env.MAXNAME ≤ g.server_host.length) := by
      rintro ⟨h1, h2⟩
      rcases hfit with h | h
      · rw [h] at h1
        cases h1
      · omega
    have hsome : ∃ r self' g', Data_init env self a g = some (r, self', g') := by
      rw [Data_init_eq, if_neg hnf]
      split
      · exact ⟨_, _, _, rfl⟩
      split
      · exact ⟨_, _, _, rfl⟩
      rw [hds]
      exact ⟨_, _, _, rfl⟩
    obtain ⟨r, self', g', h⟩ := hsome
    obtain ⟨xs, e, q⟩ := Data_init_logs h
    exact ⟨r, self', g', xs, h, e, fun x hx => inBounds_of_tail _ hr (q x hx)⟩
  · obtain ⟨ds, hds, hlen⟩ := readDimsize_ok env.client handle
      (env.client.getIdamRank handle).toNat 0 (List.replicate 8 0) (by omega)
    simp only [List.length_replicate] at hlen
    refine ⟨⟨ds, hds, hlen⟩, ?_⟩
    obtain ⟨o, g', h⟩ := idam_readData_defined g hds
    obtain ⟨xs, e, q⟩ := idam_readData_logs h
    exact ⟨o, g', xs, h, e, fun x hx =>
      inBounds_of_tail handle hr (Or.inl (q x hx))⟩
  · have hov := fillDimsize_overflow env.client (handleOf env a g) _ (List.replicate 8 0) hr
    refine ⟨hov, fun hst hnum => ?_⟩
    rw [Data_init_eq]
    by_cases hnf : a.host.isSome ∧ env.MAXNAME ≤ g.server_host.length
    · rw [if_pos hnf]
    · rw [if_neg hnf, if_neg hst, if_neg (by omega), hov]
  · have hov := readDimsize_overflow env.client handle (env.client.getIdamRank handle).toNat 0
      (List.replicate 8 0) (by omega) (by omega)
    refine ⟨hov, fun hnum => ?_⟩
    unfold idam_readData
    rw [if_neg (by omega)]
    simp only [hov]

/-- Witness for C14: on the example client (rank 3) both functions return and
every access they log is in bounds, among them the 16 accesses of the successful
`Data_init`; a client of rank 9 leaves the buffer in both. -/
theorem dimsize_accesses_in_bounds_witness :
    (clientA.getIdamRank 7 ≤ 8 ∧
      (argsPlain.host = none ∨ st0.server_host.length < (fakeEnvOk clientA).MAXNAME) ∧
      Data_init (fakeEnvOk clientA) Data_new argsPlain st0 = some (0, recA, stA) ∧
      stA.accesses.length = 16 ∧
      (∀ x ∈ stA.accesses, x.inBounds (clientA.getIdamRank 7)) ∧
      (∃ r self' g' xs, Data_init (fakeEnvOk clientA) Data_new argsPlain st0 =
          some (r, self', g') ∧ g'.accesses = st0.accesses ++ xs ∧
        ∀ x ∈ xs, x.inBounds (clientA.getIdamRank 7)) ∧
      (∃ o g' xs, idam_readData (fakeEnvOk clientA) 7 st0 = some (o, g') ∧
        g'.accesses = st0.accesses ++ xs ∧
        ∀ x ∈ xs, x.inBounds (clientA.getIdamRank 7))) ∧
    (8 < clientWide.getIdamRank 7 ∧ clientWide.getIdamSourceStatus 7 ≠ 0 ∧
      0 < clientWide.getIdamDataNum 7 ∧
      Data_init (fakeEnvOk clientWide) Data_new argsPlain st0 = none ∧
      idam_readData (fakeEnvOk clientWide) 7 st0 = none) :=
  ⟨⟨by decide, by decide, by decide, by decide, by decide,
    ((dimsize_accesses_in_bounds (fakeEnvOk clientA) Data_new argsPlain st0 7).1
      (by decide)).2 (by decide),
    ((dimsize_accesses_in_bounds (fakeEnvOk clientA) Data_new argsPlain st0 7).2.1
      (by decide)).2⟩,
   ⟨by decide, by decide, by decide,
    ((dimsize_accesses_in_bounds (fakeEnvOk clientWide) Data_new argsPlain st0 7).2.2.1
      (by decide)).2 (by decide) (by decide),
    ((dimsize_accesses_in_bounds (fakeEnvOk clientWide) Data_new argsPlain st0 7).2.2.2
      (by decide)).2 (by decide)⟩⟩

end Idam
